import Mathlib

/-!
# Verification of the `decisions` profit-decision engine

Shallow embedding of the decision engine of the `decisions` repository
(`app/services/profit-calculator.server.ts`, `app/services/decision-rules.server.ts`,
and the outcome/calibration/resurfacing module) together with proofs of the
specified properties.

Modelling conventions:
* JavaScript `number` values (currency amounts, rates, quantities) are modelled
  as `ℚ`; the monetary string fields of the platform payload (`"46.00"` etc.)
  are modelled as their parsed rational values, since every consumer
  immediately applies `parseFloat`.
* Timestamps are modelled as rational day numbers; `date.setDate(date.getDate() + n)`
  becomes addition of `n` days.
* JavaScript `Map` objects are modelled as insertion-ordered association lists
  (`Map.set` overwrites in place, `Map` built from an entry list keeps the last
  entry per key).
* Database tables are modelled as lists of row structures inside a `DbState`;
  a prisma `update` by id maps the row list.
* Presentation-only string fields (`headline`, `actionTitle`, `reason`,
  `seasonalContext`, `salesPaceContext`, `runRateContext`) and the helpers
  that only feed them (`formatCurrency`, `getSeasonalContext`,
  `calculateRecentSalesPace`) are not modelled: no verified property reads
  them, and they do not influence any other field.
* JavaScript `Array.prototype.sort` is stable; it is modelled by a stable
  insertion sort on the comparator's key.
-/

namespace Decisions

/-- Model of `financialStatus`, `type`, `status`, `confidence`, `outcomeStatus` enums. -/
inductive DecisionType where
  | best_seller_loss
  | free_shipping_trap
  | discount_refund_hit
deriving DecidableEq, Repr

inductive ConfidenceLevel where
  | high
  | medium
  | low
deriving DecidableEq, Repr

inductive OutcomeStatus where
  | improved
  | no_change
  | worsened
deriving DecidableEq, Repr

inductive DecisionStatus where
  | active
  | done
  | ignored
deriving DecidableEq, Repr

/-- Model of `RefundData.refundLineItems[i]` from `shopify-data.server.ts`. -/
structure RefundLineItem where
  lineItemId : String
  quantity : ℚ
  subtotal : ℚ
deriving DecidableEq, Repr

/-- Model of `RefundData` from `shopify-data.server.ts`. -/
structure RefundData where
  totalRefunded : ℚ
  refundLineItems : List RefundLineItem
deriving DecidableEq, Repr

/-- Model of `OrderLineItem` from `shopify-data.server.ts`. -/
structure OrderLineItem where
  id : String
  quantity : ℚ
  price : ℚ
  discountedPrice : ℚ
  variantId : Option String
  sku : Option String
deriving DecidableEq, Repr

/-- Model of `OrderData` from `shopify-data.server.ts` (fields the engine reads). -/
structure OrderData where
  id : String
  createdAt : ℚ
  totalPrice : ℚ
  subtotalPrice : ℚ
  totalDiscounts : ℚ
  financialStatus : String
  refunds : List RefundData
  lineItems : List OrderLineItem
deriving DecidableEq, Repr

/-- Model of `VariantProfitMetrics` from `profit-calculator.server.ts`. -/
structure VariantProfitMetrics where
  variantId : String
  sku : Option String
  unitsSold : ℚ
  ordersCount : ℚ
  revenue : ℚ
  averagePrice : ℚ
  cogs : ℚ
  totalCOGS : ℚ
  assumedShipping : ℚ
  totalDiscounts : ℚ
  discountRate : ℚ
  refundedRevenue : ℚ
  refundedUnits : ℚ
  refundRate : ℚ
  grossProfit : ℚ
  netProfit : ℚ
  marginPercent : ℚ
deriving DecidableEq, Repr

/-- Model of `OrderProfitMetrics` from `profit-calculator.server.ts`. -/
structure OrderProfitMetrics where
  orderId : String
  revenue : ℚ
  cogs : ℚ
  shipping : ℚ
  discounts : ℚ
  refunds : ℚ
  grossProfit : ℚ
  netProfit : ℚ
  marginPercent : ℚ
deriving DecidableEq, Repr

/-! ## Association-list model of a JavaScript `Map` -/

/-- Model of `Map.get`: first (= unique) binding of `k`. -/
def getAssoc {β : Type} (m : List (String × β)) (k : String) : Option β :=
  match m with
  | [] => none
  | (k', v) :: rest => if k' = k then some v else getAssoc rest k

/-- Model of `Map.set`: overwrite in place, preserving insertion order; append if absent. -/
def setAssoc {β : Type} (m : List (String × β)) (k : String) (v : β) :
    List (String × β) :=
  match m with
  | [] => [(k, v)]
  | (k', v') :: rest =>
      if k' = k then (k, v) :: rest else (k', v') :: setAssoc rest k v

/-- Model of `new Map(entries)`: later entries overwrite earlier ones. -/
def mapOfEntries {β : Type} (entries : List (String × β)) : List (String × β) :=
  entries.foldl (fun m (kv : String × β) => setAssoc m kv.1 kv.2) []

/-! ## Stable sorting (JavaScript `Array.prototype.sort` with a key comparator) -/

/-- Insert `x` into a descending-sorted list: `x` goes before the first
strictly smaller element, after elements with an equal key (stability:
in the unsorted input `x` precedes them means... `x` is the earlier element,
so ties keep `x` first). -/
def insertDescBy {α : Type} (key : α → ℚ) (x : α) : List α → List α
  | [] => [x]
  | y :: ys => if key x ≥ key y then x :: y :: ys else y :: insertDescBy key x ys

/-- Stable sort, descending by `key` — the unique stable result of
`arr.sort((a, b) => key(b) - key(a))`. -/
def sortDescBy {α : Type} (key : α → ℚ) : List α → List α
  | [] => []
  | x :: xs => insertDescBy key x (sortDescBy key xs)

/-- Insert `x` into an ascending-sorted list (stable). -/
def insertAscBy {α : Type} (key : α → ℚ) (x : α) : List α → List α
  | [] => [x]
  | y :: ys => if key x ≤ key y then x :: y :: ys else y :: insertAscBy key x ys

/-- Stable sort, ascending by `key` — `arr.sort((a, b) => key(a) - key(b))`. -/
def sortAscBy {α : Type} (key : α → ℚ) : List α → List α
  | [] => []
  | x :: xs => insertAscBy key x (sortAscBy key xs)

/-! ## Profit Calculator (`profit-calculator.server.ts`) -/

/-- Model of `calculateOrderProfit`: the `getVariantCOGS` database lookup is passed in
as the function `cogs`. -/
def calculateOrderProfit (cogs : String → Option ℚ) (order : OrderData)
    (assumedShippingCost : ℚ) : OrderProfitMetrics :=
  let revenue := order.totalPrice
  let discounts := order.totalDiscounts
  let refunds := order.refunds.foldl (fun sum r => sum + r.totalRefunded) 0
  let totalCOGS := order.lineItems.foldl
    (fun acc item =>
      match item.variantId with
      | none => acc
      | some vid =>
          if vid = "" then acc
          else
            match cogs vid with
            | none => acc
            | some cost => if cost ≠ 0 then acc + cost * item.quantity else acc)
    0
  let shipping := assumedShippingCost
  let grossProfit := revenue - totalCOGS
  let netProfit := revenue - totalCOGS - shipping - discounts - refunds
  let marginPercent := if revenue > 0 then netProfit / revenue * 100 else 0
  { orderId := order.id
    revenue := revenue
    cogs := totalCOGS
    shipping := shipping
    discounts := discounts
    refunds := refunds
    grossProfit := grossProfit
    netProfit := netProfit
    marginPercent := marginPercent }

/-- The per-order refund map `refundsByLineItem` (revenue, units). -/
def refundsByLineItem (order : OrderData) : List (String × (ℚ × ℚ)) :=
  order.refunds.foldl
    (fun m refund =>
      refund.refundLineItems.foldl
        (fun m rl =>
          let existing := (getAssoc m rl.lineItemId).getD (0, 0)
          setAssoc m rl.lineItemId
            (existing.1 + rl.subtotal, existing.2 + rl.quantity))
        m)
    []

/-- Fresh `VariantProfitMetrics` entry created when a variant is first seen. -/
def initVariantMetrics (cogs : String → Option ℚ) (vid : String)
    (item : OrderLineItem) : VariantProfitMetrics :=
  { variantId := vid
    sku := item.sku
    unitsSold := 0
    ordersCount := 0
    revenue := 0
    averagePrice := 0
    cogs := (cogs vid).getD 0
    totalCOGS := 0
    assumedShipping := 0
    totalDiscounts := 0
    discountRate := 0
    refundedRevenue := 0
    refundedUnits := 0
    refundRate := 0
    grossProfit := 0
    netProfit := 0
    marginPercent := 0 }

/-- Loop body of `calculateVariantProfits` for one line item of `order`. -/
def processLineItem (cogs : String → Option ℚ) (assumedShippingCost : ℚ)
    (order : OrderData) (refunds : List (String × (ℚ × ℚ)))
    (m : List (String × VariantProfitMetrics)) (item : OrderLineItem) :
    List (String × VariantProfitMetrics) :=
  match item.variantId with
  | none => m
  | some vid =>
    if vid = "" then m
    else
      let itemRevenue := item.price * item.quantity
      let itemDiscountedPrice := item.discountedPrice * item.quantity
      let itemDiscounts := itemRevenue - itemDiscountedPrice
      let refundData := (getAssoc refunds item.id).getD (0, 0)
      let metrics := (getAssoc m vid).getD (initVariantMetrics cogs vid item)
      let metrics :=
        { metrics with
          unitsSold := metrics.unitsSold + item.quantity
          ordersCount := metrics.ordersCount + 1
          revenue := metrics.revenue + itemRevenue
          totalDiscounts := metrics.totalDiscounts + itemDiscounts
          refundedRevenue := metrics.refundedRevenue + refundData.1
          refundedUnits := metrics.refundedUnits + refundData.2 }
      let metrics :=
        if metrics.cogs > (0 : ℚ) then
          { metrics with totalCOGS := metrics.totalCOGS + metrics.cogs * item.quantity }
        else metrics
      let metrics :=
        { metrics with
          assumedShipping :=
            metrics.assumedShipping + assumedShippingCost / (order.lineItems.length : ℚ) }
      setAssoc m vid metrics

/-- Loop body of `calculateVariantProfits` for one order. -/
def processOrder (cogs : String → Option ℚ) (assumedShippingCost : ℚ)
    (m : List (String × VariantProfitMetrics)) (order : OrderData) :
    List (String × VariantProfitMetrics) :=
  let refunds := refundsByLineItem order
  order.lineItems.foldl (processLineItem cogs assumedShippingCost order refunds) m

/-- Final per-variant pass of `calculateVariantProfits` (the derived fields are
computed sequentially, so `marginPercent` reads the just-assigned `netProfit`). -/
def finalizeVariantMetrics (m : VariantProfitMetrics) : VariantProfitMetrics :=
  let averagePrice := if m.unitsSold > 0 then m.revenue / m.unitsSold else 0
  let discountRate := if m.revenue > 0 then m.totalDiscounts / m.revenue * 100 else 0
  let refundRate := if m.revenue > 0 then m.refundedRevenue / m.revenue * 100 else 0
  let grossProfit := m.revenue - m.totalCOGS
  let netProfit :=
    m.revenue - m.totalCOGS - m.assumedShipping - m.totalDiscounts - m.refundedRevenue
  let marginPercent := if m.revenue > 0 then netProfit / m.revenue * 100 else 0
  { m with
    averagePrice := averagePrice
    discountRate := discountRate
    refundRate := refundRate
    grossProfit := grossProfit
    netProfit := netProfit
    marginPercent := marginPercent }

/-- Model of `calculateVariantProfits`: accumulation over all orders, then the final
derived-field pass. -/
def calculateVariantProfits (cogs : String → Option ℚ)
    (assumedShippingCost : ℚ) (orders : List OrderData) :
    List (String × VariantProfitMetrics) :=
  let accumulated := orders.foldl (processOrder cogs assumedShippingCost) []
  accumulated.map (fun kv => (kv.1, finalizeVariantMetrics kv.2))

/-- Model of `getTopSellingVariants`: values in insertion order, stable-sorted
descending by units sold, truncated to `limit`. -/
def getTopSellingVariants (variantMetrics : List (String × VariantProfitMetrics))
    (limit : ℕ) : List VariantProfitMetrics :=
  ((sortDescBy (·.unitsSold)) (variantMetrics.map (·.2))).take limit

/-! ## Decision data (`decision-rules.server.ts`) -/

def MIN_ORDERS_FOR_DECISIONS : ℕ := 30
def MIN_BEST_SELLER_UNITS : ℚ := 10
def SYSTEM_MIN_IMPACT : ℚ := 50

/-- Model of `DecisionOutcomeMetrics` from the outcome module. -/
structure DecisionOutcomeMetrics where
  netProfitPerOrder : ℚ
  refundRate : ℚ
  shippingLossPerOrder : ℚ
  ordersCount : ℚ
deriving DecidableEq, Repr

/-- The `dataJson` evidence payload: the dynamic-record type
`{revenue, cogs, discounts, refunds, shipping, netProfit, [key: string]: any}`
modelled with every key the engine ever writes or reads; keys a given rule
does not write stay at their absent defaults. -/
structure DataJson where
  revenue : ℚ := 0
  cogs : ℚ := 0
  discounts : ℚ := 0
  refunds : ℚ := 0
  shipping : ℚ := 0
  netProfit : ℚ := 0
  variantId : Option String := none
  sku : Option String := none
  unitsSold : Option ℚ := none
  ordersCount : Option ℚ := none
  marginPercent : Option ℚ := none
  refundedUnits : Option ℚ := none
  discountRate : Option ℚ := none
  refundRate : Option ℚ := none
  currentThreshold : Option ℚ := none
  suggestedThreshold : Option ℚ := none
  nearMissCount : Option ℚ := none
  totalOrders : Option ℚ := none
  clusterRate : Option ℚ := none
  avgGap : Option ℚ := none
  confidenceHistoryRate : Option ℚ := none
  confidenceHistoryTotal : Option ℕ := none
  outcomeBaseline : Option DecisionOutcomeMetrics := none
  resurfacedFromImpact : Option ℚ := none
  resurfacedFromDecisionId : Option String := none
  isResurfaced : Bool := false
deriving DecidableEq, Repr

/-- Model of `DecisionData` (without the presentation-only string fields). -/
structure DecisionData where
  dtype : DecisionType
  impact : ℚ
  confidence : ConfidenceLevel
  dataJson : DataJson
deriving DecidableEq, Repr

/-! ## Detection rules (`decision-rules.server.ts`) -/

/-- Rule 1: Best-Seller Loss (`detectBestSellerLoss`). -/
def detectBestSellerLoss (cogs : String → Option ℚ) (assumedShippingCost : ℚ)
    (orders : List OrderData) : Option DecisionData :=
  let variantMetrics := calculateVariantProfits cogs assumedShippingCost orders
  let topSellers := getTopSellingVariants variantMetrics 20
  let losingBestSellers :=
    topSellers.filter (fun v => decide (v.netProfit < 0) || decide (v.marginPercent < 5))
  -- `if (losingBestSellers.length === 0) return null;` then take the head of the
  -- descending sort by `unitsSold × |netProfit|`; the sort of a nonempty list is
  -- nonempty, so both empty-checks coincide.
  match sortDescBy (fun v => v.unitsSold * |v.netProfit|) losingBestSellers with
  | [] => none
  | worst :: _ =>
      if worst.unitsSold < MIN_BEST_SELLER_UNITS then none
      else
        let monthlyLoss := |worst.netProfit| * (30 / 90)
        some
          { dtype := .best_seller_loss
            impact := monthlyLoss
            confidence :=
              if worst.unitsSold ≥ 20 then .high
              else if worst.unitsSold ≥ 10 then .medium
              else .low
            dataJson :=
              { revenue := worst.revenue
                cogs := worst.totalCOGS
                discounts := worst.totalDiscounts
                refunds := worst.refundedRevenue
                shipping := worst.assumedShipping
                netProfit := worst.netProfit
                variantId := some worst.variantId
                sku := some (worst.sku.getD "")
                unitsSold := some worst.unitsSold
                ordersCount := some worst.ordersCount
                marginPercent := some worst.marginPercent } }

/-- The fixed candidate thresholds of the Free-Shipping Trap rule. -/
def SHIPPING_THRESHOLDS : List ℚ := [30, 35, 40, 45, 50, 60, 75, 100]

/-- The threshold-selection loop of `detectFreeShippingTrap`:
`(bestThreshold, bestClusterCount)`, updated whenever a threshold's
near-miss count strictly exceeds the best so far. -/
def bestClusterFold (orderValues : List ℚ) : Option ℚ × ℕ :=
  SHIPPING_THRESHOLDS.foldl
    (fun acc threshold =>
      let nearMissCount :=
        (orderValues.filter
          (fun v => decide (v < threshold) && decide (v ≥ threshold - 5))).length
      if nearMissCount > acc.2 then (some threshold, nearMissCount) else acc)
    (none, 0)

/-- The `orderValues` array of `detectFreeShippingTrap`: subtotals of paid
orders, sorted ascending. -/
def paidOrderValues (orders : List OrderData) : List ℚ :=
  sortAscBy id
    ((orders.filter (fun o => decide (o.financialStatus = "paid"))).map (·.subtotalPrice))

/-- Rule 2: Free-Shipping Trap (`detectFreeShippingTrap`). -/
def detectFreeShippingTrap (assumedShippingCost : ℚ)
    (orders : List OrderData) : Option DecisionData :=
  let orderValues := paidOrderValues orders
  if orderValues.length < 30 then none
  else
    let best := bestClusterFold orderValues
    let bestClusterCount := best.2
    let clusterRate := ((bestClusterCount : ℚ) / (orderValues.length : ℚ)) * 100
    match best.1 with
    | none => none
    | some bestThreshold =>
        if clusterRate < 15 then none
        else
          let nearMissOrders :=
            orderValues.filter
              (fun v => decide (v < bestThreshold) && decide (v ≥ bestThreshold - 5))
          let avgGap :=
            bestThreshold - (nearMissOrders.foldl (· + ·) 0) / (nearMissOrders.length : ℚ)
          let periodSavings := (bestClusterCount : ℚ) * assumedShippingCost
          let monthlySavings := periodSavings * 30 / 90
          some
            { dtype := .free_shipping_trap
              impact := monthlySavings
              confidence :=
                if clusterRate ≥ 25 then .high
                else if clusterRate ≥ 18 then .medium
                else .low
              dataJson :=
                { shipping := periodSavings
                  netProfit := periodSavings
                  currentThreshold := some bestThreshold
                  suggestedThreshold := some (bestThreshold - 5)
                  nearMissCount := some (bestClusterCount : ℚ)
                  totalOrders := some (orderValues.length : ℚ)
                  clusterRate := some clusterRate
                  avgGap := some avgGap } }

/-- Rule 3: Discount-Refund Double Hit (`detectDiscountRefundHit`). -/
def detectDiscountRefundHit (cogs : String → Option ℚ) (assumedShippingCost : ℚ)
    (orders : List OrderData) : Option DecisionData :=
  let variantMetrics := calculateVariantProfits cogs assumedShippingCost orders
  let doubleHitVariants :=
    (variantMetrics.map (·.2)).filter
      (fun v =>
        decide (v.discountRate ≥ 20) && decide (v.refundRate ≥ 15) &&
        decide (v.unitsSold ≥ 10) && decide (v.netProfit < 0))
  match sortAscBy (·.netProfit) doubleHitVariants with
  | [] => none
  | worst :: _ =>
      let totalLoss := |worst.netProfit|
      let monthlyLoss := totalLoss * (30 / 90)
      some
        { dtype := .discount_refund_hit
          impact := monthlyLoss
          confidence :=
            if worst.unitsSold ≥ 20 then .high
            else if worst.unitsSold ≥ 15 then .medium
            else .low
          dataJson :=
            { revenue := worst.revenue
              cogs := worst.totalCOGS
              discounts := worst.totalDiscounts
              refunds := worst.refundedRevenue
              shipping := worst.assumedShipping
              netProfit := worst.netProfit
              variantId := some worst.variantId
              sku := some (worst.sku.getD "")
              unitsSold := some worst.unitsSold
              ordersCount := some worst.ordersCount
              refundedUnits := some worst.refundedUnits
              discountRate := some worst.discountRate
              refundRate := some worst.refundRate
              marginPercent := some worst.marginPercent } }

def DecisionType.str : DecisionType → String
  | .best_seller_loss => "best_seller_loss"
  | .free_shipping_trap => "free_shipping_trap"
  | .discount_refund_hit => "discount_refund_hit"

def ConfidenceLevel.str : ConfidenceLevel → String
  | .high => "high"
  | .medium => "medium"
  | .low => "low"

/-- Model of `generateDecisionKey`. In JavaScript `dataJson.variantId` is tested for
truthiness, so an empty-string variant id falls through like a missing one;
a missing threshold interpolates to the string `"undefined"`. -/
def generateDecisionKey (decision : DecisionData) : String :=
  match decision.dataJson.variantId with
  | some vid =>
      if vid ≠ "" then decision.dtype.str ++ ":" ++ vid
      else if decision.dtype = .free_shipping_trap then
        decision.dtype.str ++ ":" ++
          (match decision.dataJson.currentThreshold with
           | some t => toString t
           | none => "undefined")
      else decision.dtype.str ++ ":unknown"
  | none =>
      if decision.dtype = .free_shipping_trap then
        decision.dtype.str ++ ":" ++
          (match decision.dataJson.currentThreshold with
           | some t => toString t
           | none => "undefined")
      else decision.dtype.str ++ ":unknown"

/-! ## Outcome evaluation, calibration and resurfacing (outcome module) -/

def DEFAULT_OUTCOME_WINDOW_DAYS : ℚ := 30
def MIN_OUTCOME_ORDERS : ℚ := 10

/-- Model of `DecisionScope`: the fields of a decision that outcome scoping reads. -/
structure DecisionScope where
  dtype : DecisionType
  dataJson : DataJson
deriving DecidableEq, Repr

/-- Model of `ConfidenceStats` for one `type:confidence` bucket. -/
structure ConfidenceStats where
  total : ℕ
  improved : ℕ
  successRate : ℚ
deriving DecidableEq, Repr

/-- Model of `evaluateOutcomeStatus`: flag the three deltas against the fixed
tolerances, then apply the 2-of-3 majority. -/
def evaluateOutcomeStatus (baseline post : DecisionOutcomeMetrics) :
    OutcomeStatus :=
  let profitDelta := post.netProfitPerOrder - baseline.netProfitPerOrder
  let refundDelta := baseline.refundRate - post.refundRate
  let shippingDelta := baseline.shippingLossPerOrder - post.shippingLossPerOrder
  let profitImproved := decide (profitDelta ≥ 1/2)
  let profitWorsened := decide (profitDelta ≤ -(1/2))
  let refundImproved := decide (refundDelta ≥ 2)
  let refundWorsened := decide (refundDelta ≤ -2)
  let shippingImproved := decide (shippingDelta ≥ 1/2)
  let shippingWorsened := decide (shippingDelta ≤ -(1/2))
  let improvements := [profitImproved, refundImproved, shippingImproved].count true
  let worsenings := [profitWorsened, refundWorsened, shippingWorsened].count true
  if improvements ≥ 2 then .improved
  else if worsenings ≥ 2 then .worsened
  else .no_change

/-- Model of `filterOrdersByDate` (inclusive bounds). -/
def filterOrdersByDate (orders : List OrderData) (startDate endDate : ℚ) :
    List OrderData :=
  orders.filter
    (fun o => decide (o.createdAt ≥ startDate) && decide (o.createdAt ≤ endDate))

/-- Accumulator of `calculateOrderCohortMetrics`'s loop. -/
structure CohortTotals where
  totalRevenue : ℚ := 0
  totalDiscounts : ℚ := 0
  totalRefunds : ℚ := 0
  totalCOGS : ℚ := 0
  totalShipping : ℚ := 0
deriving DecidableEq, Repr

/-- Model of `calculateOrderCohortMetrics`; `getShopSettings`/`getAllCOGS` are passed in
as `assumedShippingCost` and `cogsMap`.  The `if (cost)` truthiness test skips
a zero stored cost. -/
def calculateOrderCohortMetrics (assumedShippingCost : ℚ)
    (cogsMap : String → Option ℚ) (orders : List OrderData) :
    Option DecisionOutcomeMetrics :=
  if orders.length = 0 then none
  else
    let t := orders.foldl
      (fun acc order =>
        let acc :=
          { acc with
            totalRevenue := acc.totalRevenue + order.totalPrice
            totalDiscounts := acc.totalDiscounts + order.totalDiscounts
            totalShipping := acc.totalShipping + assumedShippingCost }
        let acc := order.refunds.foldl
          (fun a r => { a with totalRefunds := a.totalRefunds + r.totalRefunded }) acc
        order.lineItems.foldl
          (fun a item =>
            match item.variantId with
            | none => a
            | some vid =>
                if vid = "" then a
                else
                  match cogsMap vid with
                  | none => a
                  | some cost =>
                      if cost ≠ 0 then
                        { a with totalCOGS := a.totalCOGS + cost * item.quantity }
                      else a)
          acc)
      ({} : CohortTotals)
    let netProfit :=
      t.totalRevenue - t.totalCOGS - t.totalShipping - t.totalDiscounts - t.totalRefunds
    let refundRate :=
      if t.totalRevenue > 0 then t.totalRefunds / t.totalRevenue * 100 else 0
    some
      { netProfitPerOrder := netProfit / (orders.length : ℚ)
        refundRate := refundRate
        shippingLossPerOrder := t.totalShipping / (orders.length : ℚ)
        ordersCount := (orders.length : ℚ) }

/-- Model of `calculateVariantScopeMetrics`. -/
def calculateVariantScopeMetrics (cogs : String → Option ℚ)
    (assumedShippingCost : ℚ) (orders : List OrderData) (variantId : String) :
    Option DecisionOutcomeMetrics :=
  let variantMetrics := calculateVariantProfits cogs assumedShippingCost orders
  match getAssoc variantMetrics variantId with
  | none => none
  | some metrics =>
      if metrics.ordersCount = 0 then none
      else
        some
          { netProfitPerOrder := metrics.netProfit / metrics.ordersCount
            refundRate := metrics.refundRate
            shippingLossPerOrder := metrics.assumedShipping / metrics.ordersCount
            ordersCount := metrics.ordersCount }

/-- Model of `calculateFreeShippingCohortMetrics`. -/
def calculateFreeShippingCohortMetrics (assumedShippingCost : ℚ)
    (cogsMap : String → Option ℚ) (orders : List OrderData) (threshold : ℚ) :
    Option DecisionOutcomeMetrics :=
  let nearMissOrders := orders.filter
    (fun o =>
      decide (o.financialStatus = "paid") &&
      decide (o.subtotalPrice < threshold) &&
      decide (o.subtotalPrice ≥ threshold - 5))
  calculateOrderCohortMetrics assumedShippingCost cogsMap nearMissOrders

/-- Model of `computeOutcomeMetrics`.  `if (!threshold)` and `if (!variantId)` are
JavaScript truthiness tests, so a zero threshold or empty variant id also
short-circuit to `null`. -/
def computeOutcomeMetrics (assumedShippingCost : ℚ) (cogs : String → Option ℚ)
    (decision : DecisionScope) (orders : List OrderData) :
    Option DecisionOutcomeMetrics :=
  if decision.dtype = .free_shipping_trap then
    match decision.dataJson.currentThreshold with
    | none => none
    | some threshold =>
        if threshold = 0 then none
        else calculateFreeShippingCohortMetrics assumedShippingCost cogs orders threshold
  else
    match decision.dataJson.variantId with
    | none => none
    | some variantId =>
        if variantId = "" then none
        else calculateVariantScopeMetrics cogs assumedShippingCost orders variantId

/-- Model of `buildOutcomeBaselineMetrics`: variant-scoped rules derive the baseline
from the candidate's own evidence payload when it carries an order count;
otherwise (and always for the free-shipping rule) fall back to recomputation. -/
def buildOutcomeBaselineMetrics (assumedShippingCost : ℚ)
    (cogs : String → Option ℚ) (decision : DecisionScope)
    (orders : List OrderData) : Option DecisionOutcomeMetrics :=
  if decision.dtype ≠ .free_shipping_trap then
    let revenue := decision.dataJson.revenue
    let refunds := decision.dataJson.refunds
    let shipping := decision.dataJson.shipping
    let netProfit := decision.dataJson.netProfit
    let ordersCount := decision.dataJson.ordersCount.getD 0
    if ordersCount > 0 then
      some
        { netProfitPerOrder := netProfit / ordersCount
          refundRate := if revenue > 0 then refunds / revenue * 100 else 0
          shippingLossPerOrder := shipping / ordersCount
          ordersCount := ordersCount }
    else computeOutcomeMetrics assumedShippingCost cogs decision orders
  else computeOutcomeMetrics assumedShippingCost cogs decision orders

/-- Result record of `calibrateConfidence`. -/
structure CalibrationResult where
  confidence : ConfidenceLevel
  successRate : Option ℚ := none
  total : Option ℕ := none
deriving DecidableEq, Repr

/-- Model of `calibrateConfidence`. -/
def calibrateConfidence (baseConfidence : ConfidenceLevel)
    (history : Option ConfidenceStats) : CalibrationResult :=
  match history with
  | none => { confidence := baseConfidence }
  | some h =>
      if h.total < 5 then { confidence := baseConfidence }
      else
        let successRate := h.successRate
        match baseConfidence with
        | .high =>
            { confidence := .high, successRate := some successRate, total := some h.total }
        | .medium =>
            if successRate ≥ 7/10 then
              { confidence := .high, successRate := some successRate, total := some h.total }
            else if successRate ≤ 3/10 then
              { confidence := .low, successRate := some successRate, total := some h.total }
            else
              { confidence := .medium, successRate := some successRate, total := some h.total }
        | .low =>
            if successRate ≥ 7/10 then
              { confidence := .medium, successRate := some successRate, total := some h.total }
            else
              { confidence := .low, successRate := some successRate, total := some h.total }

/-- The projection of a new candidate that `pickResurfacingCandidate` reads
(`T extends { decisionKey: string; impact: number }`); `idx` is the candidate's
position in the run's sorted list, standing for its object identity. -/
structure NewDecisionRef where
  idx : ℕ
  impact : ℚ
  decisionKey : String
deriving DecidableEq, Repr

/-- The `{id, decisionKey, impact, resurfacedAt}` selection of an ignored row. -/
structure IgnoredRef where
  id : String
  decisionKey : String
  impact : ℚ
  resurfacedAt : Option ℚ
deriving DecidableEq, Repr

/-- The `{id, decisionKey, impact}` projection returned for the ignored side. -/
structure IgnoredSel where
  id : String
  decisionKey : String
  impact : ℚ
deriving DecidableEq, Repr

/-- The eligible pair list built by `pickResurfacingCandidate`'s loop: for each
new decision, the never-resurfaced ignored record registered under its key (a
`Map` keyed by decision key, later entries overwriting earlier ones), kept
when the new impact is at least 1.5 times the ignored impact. -/
def resurfacingCandidates (newDecisions : List NewDecisionRef)
    (ignoredDecisions : List IgnoredRef) :
    List (NewDecisionRef × IgnoredSel) :=
  let ignoredMap :=
    mapOfEntries
      ((ignoredDecisions.filter (fun d => d.resurfacedAt.isNone)).map
        (fun d => (d.decisionKey, d)))
  newDecisions.filterMap
    (fun d =>
      match getAssoc ignoredMap d.decisionKey with
      | none => none
      | some ignored =>
          if d.impact ≥ ignored.impact * (3/2 : ℚ) then
            some (d, IgnoredSel.mk ignored.id ignored.decisionKey ignored.impact)
          else none)

/-- Model of `pickResurfacingCandidate`: the eligible pair of highest new
impact. -/
def pickResurfacingCandidate (newDecisions : List NewDecisionRef)
    (ignoredDecisions : List IgnoredRef) :
    Option (NewDecisionRef × IgnoredSel) :=
  match sortDescBy (fun c => c.1.impact) (resurfacingCandidates newDecisions ignoredDecisions) with
  | [] => none
  | c :: _ => some c

/-! ## Persisted state (the record store, per merchant) -/

/-- The merchant's `Shop` row (fields the engine reads/writes). -/
structure ShopRow where
  assumedShippingCost : ℚ := 7/2
  minImpactThreshold : Option ℚ := some 50
  lastOrderCount : Option ℕ := none
  lastAnalyzedAt : Option ℚ := none
deriving DecidableEq, Repr

/-- A persisted `Decision` row. -/
structure Decision where
  id : String
  dtype : DecisionType
  status : DecisionStatus
  impact : ℚ
  confidence : ConfidenceLevel
  dataJson : DataJson
  runId : Option String := none
  decisionKey : String := ""
  resurfacedAt : Option ℚ := none
  generatedAt : ℚ := 0
  completedAt : Option ℚ := none
  ignoredAt : Option ℚ := none
deriving DecidableEq, Repr

/-- Projection of a decision row to the `{id, decisionKey, impact,
resurfacedAt}` selection `pickResurfacingCandidate` receives. -/
def toIgnoredRef (d : Decision) : IgnoredRef :=
  IgnoredRef.mk d.id d.decisionKey d.impact d.resurfacedAt

/-- A persisted `DecisionRun` row. -/
structure DecisionRun where
  id : String
  orderCount : ℕ
  windowDays : ℚ
  generatedAt : ℚ
deriving DecidableEq, Repr

/-- A persisted `DecisionOutcome` row (`decisionId` is unique). -/
structure OutcomeRecord where
  id : String
  decisionId : String
  baselineMetrics : DecisionOutcomeMetrics
  postMetrics : Option DecisionOutcomeMetrics := none
  outcomeStatus : Option OutcomeStatus := none
  evaluatedAt : Option ℚ := none
  windowDays : Option ℚ := some DEFAULT_OUTCOME_WINDOW_DAYS
deriving DecidableEq, Repr

/-- One merchant's slice of the record store. -/
structure DbState where
  shopRow : ShopRow
  decisions : List Decision
  runs : List DecisionRun
  outcomes : List OutcomeRecord
deriving DecidableEq, Repr

/-- Model of `getConfidenceHistoryStats`: success statistics per `type:confidence`
bucket over evaluated outcomes. -/
def getConfidenceHistoryStats (decisions : List Decision)
    (outcomes : List OutcomeRecord) : List (String × ConfidenceStats) :=
  if decisions.length = 0 then []
  else
    let relevantOutcomes := outcomes.filter
      (fun o => decide (o.decisionId ∈ decisions.map (·.id)) && o.outcomeStatus.isSome)
    let decisionMap := mapOfEntries (decisions.map (fun d => (d.id, d)))
    relevantOutcomes.foldl
      (fun stats outcome =>
        match getAssoc decisionMap outcome.decisionId with
        | none => stats
        | some decision =>
            let key := decision.dtype.str ++ ":" ++ decision.confidence.str
            let current := (getAssoc stats key).getD ⟨0, 0, 0⟩
            let total := current.total + 1
            let improved :=
              current.improved + (if outcome.outcomeStatus = some .improved then 1 else 0)
            let successRate := if total > 0 then (improved : ℚ) / (total : ℚ) else 0
            setAssoc stats key ⟨total, improved, successRate⟩)
      []

/-- Model of `prisma.decisionOutcome.update({where: {id}, data: f})`. -/
def updateOutcomeById (outcomes : List OutcomeRecord) (oid : String)
    (f : OutcomeRecord → OutcomeRecord) : List OutcomeRecord :=
  outcomes.map (fun o => if o.id = oid then f o else o)

/-- Model of `markDecisionDone`: mark the row done and upsert its outcome record —
the upsert's update branch re-seeds the baseline and clears `evaluatedAt`,
`postMetrics` and `outcomeStatus`.  Returns `none` when the decision id does
not exist (`throw new Error("Decision not found")`). -/
def markDecisionDone (now : ℚ) (decisionId : String) (st : DbState) :
    Option DbState :=
  match st.decisions.find? (fun d => d.id = decisionId) with
  | none => none
  | some decision =>
      let decisions := st.decisions.map
        (fun d =>
          if d.id = decisionId then { d with status := .done, completedAt := some now }
          else d)
      let baselineMetrics := decision.dataJson.outcomeBaseline.getD ⟨0, 0, 0, 0⟩
      let outcomes :=
        if st.outcomes.any (fun o => o.decisionId = decisionId) then
          st.outcomes.map
            (fun o =>
              if o.decisionId = decisionId then
                { o with
                  baselineMetrics := baselineMetrics
                  evaluatedAt := none
                  postMetrics := none
                  outcomeStatus := none }
              else o)
        else
          st.outcomes ++
            [{ id := "outcome:" ++ decisionId
               decisionId := decisionId
               baselineMetrics := baselineMetrics }]
      some { st with decisions := decisions, outcomes := outcomes }

/-- Model of `markDecisionIgnored`. -/
def markDecisionIgnored (now : ℚ) (decisionId : String) (st : DbState) : DbState :=
  { st with
    decisions := st.decisions.map
      (fun d =>
        if d.id = decisionId then { d with status := .ignored, ignoredAt := some now }
        else d) }

/-- The data `evaluateDecisionOutcomes` writes for one decision/outcome pair
whose evaluation window has elapsed: the post metrics and the assigned
status. -/
structure OutcomeWrite where
  postMetrics : Option DecisionOutcomeMetrics
  outcomeStatus : OutcomeStatus
deriving DecidableEq, Repr

/-- One decision's evaluation inside `evaluateDecisionOutcomes`'s loop:
`none` when the window has not yet elapsed (the loop skips the record);
otherwise the post-window metrics are computed over the orders dated inside
the window, and the outcome is `no_change` without consulting the baseline
whenever the scoped order count is missing or below `MIN_OUTCOME_ORDERS`. -/
def evalOutcomeWrite (assumedShippingCost : ℚ) (cogs : String → Option ℚ)
    (now : ℚ) (orders : List OrderData) (decision : Decision)
    (outcome : OutcomeRecord) (completedAt : ℚ) : Option OutcomeWrite :=
  let windowDays := outcome.windowDays.getD DEFAULT_OUTCOME_WINDOW_DAYS
  let windowEnd := completedAt + windowDays
  if now < windowEnd then none
  else
    let windowOrders := filterOrdersByDate orders completedAt windowEnd
    let postMetrics := computeOutcomeMetrics assumedShippingCost cogs
      ⟨decision.dtype, decision.dataJson⟩ windowOrders
    match postMetrics with
    | none => some ⟨none, .no_change⟩
    | some pm =>
        if pm.ordersCount < MIN_OUTCOME_ORDERS then some ⟨some pm, .no_change⟩
        else some ⟨some pm, evaluateOutcomeStatus outcome.baselineMetrics pm⟩

/-- One iteration of `evaluateDecisionOutcomes`'s per-decision loop:
look up the decision's pending outcome record, skip unless both the record
and a completion timestamp exist and the window has elapsed, otherwise write
the evaluation (post metrics, status, and the evaluation timestamp). -/
def evalLoopStep (assumedShippingCost : ℚ) (cogs : String → Option ℚ)
    (now : ℚ) (orders : List OrderData)
    (outcomesByDecision : List (String × OutcomeRecord))
    (acc : ℕ × DbState) (decision : Decision) : ℕ × DbState :=
  match getAssoc outcomesByDecision decision.id, decision.completedAt with
  | some outcome, some completedAt =>
      match evalOutcomeWrite assumedShippingCost cogs now orders decision
          outcome completedAt with
      | none => acc
      | some w =>
          (acc.1 + 1,
            { acc.2 with
              outcomes := updateOutcomeById acc.2.outcomes outcome.id
                (fun o =>
                  { o with
                    postMetrics := w.postMetrics
                    outcomeStatus := some w.outcomeStatus
                    evaluatedAt := some now }) })
  | _, _ => acc

/-- Model of `evaluateDecisionOutcomes`: grade every done decision whose outcome is
still unevaluated and whose window has elapsed.  Returns the number of
records updated together with the new state. -/
def evaluateDecisionOutcomes (assumedShippingCost : ℚ)
    (cogs : String → Option ℚ) (now : ℚ) (orders : List OrderData)
    (st : DbState) : ℕ × DbState :=
  let decisions := st.decisions.filter
    (fun d => decide (d.status = DecisionStatus.done) && d.completedAt.isSome)
  if decisions.length = 0 then (0, st)
  else
    let pending := st.outcomes.filter
      (fun o => decide (o.decisionId ∈ decisions.map (·.id)) && o.evaluatedAt.isNone)
    if pending.length = 0 then (0, st)
    else
      let outcomesByDecision := mapOfEntries (pending.map (fun o => (o.decisionId, o)))
      decisions.foldl
        (evalLoopStep assumedShippingCost cogs now orders outcomesByDecision)
        (0, st)

/-! ## The decision lifecycle run (`generateDecisions`) -/

/-- A candidate of the current run, paired with its position `idx` in the
sorted candidate array (standing for the array element's object identity)
and its decision key. -/
structure RunEntry where
  idx : ℕ
  decision : DecisionData
  decisionKey : String
deriving DecidableEq, Repr

/-- Members of the run's `activeDecisions` array: `original i` is the sorted
array's element `i` itself; `copy i` is the spread copy of element `i`
made for the resurfacing candidate — a distinct object, which is what
`activeDecisions.includes(...)` (reference equality) distinguishes. -/
inductive ActiveRef where
  | original (idx : ℕ)
  | copy (idx : ℕ)
deriving DecidableEq, Repr

def activeTagIdx : ActiveRef → ℕ
  | .original i => i
  | .copy i => i

/-- Model of `Math.max(shopSettings.minImpactThreshold ?? SYSTEM_MIN_IMPACT, SYSTEM_MIN_IMPACT)`. -/
def effectiveMinImpact (shopSettings : ShopRow) : ℚ :=
  max (shopSettings.minImpactThreshold.getD SYSTEM_MIN_IMPACT) SYSTEM_MIN_IMPACT

/-- The `lastOrderCount`/`lastAnalyzedAt` shop-stats update. -/
def updatedShopRow (shopSettings : ShopRow) (now : ℚ) (orderCount : ℕ) : ShopRow :=
  { shopSettings with
    lastOrderCount := some orderCount
    lastAnalyzedAt := some now }

/-- Model of `updateMany({where: {status: "active"}, data: {status: "done", completedAt}})`. -/
def clearActiveDecisions (now : ℚ) (decisions : List Decision) : List Decision :=
  decisions.map
    (fun d =>
      if d.status = DecisionStatus.active then
        { d with status := .done, completedAt := some now }
      else d)

/-- The three detection rules run together, nulls dropped. -/
def runDetectionRules (cogs : String → Option ℚ) (assumedShippingCost : ℚ)
    (orders : List OrderData) : List DecisionData :=
  let bestSellerLoss := detectBestSellerLoss cogs assumedShippingCost orders
  let freeShippingTrap := detectFreeShippingTrap assumedShippingCost orders
  let discountRefundHit := detectDiscountRefundHit cogs assumedShippingCost orders
  [bestSellerLoss, freeShippingTrap, discountRefundHit].filterMap (fun d => d)

/-- The per-decision calibration + baseline pass of `generateDecisions`. -/
def applyCalibration (confidenceStats : List (String × ConfidenceStats))
    (assumedShippingCost : ℚ) (cogs : String → Option ℚ)
    (orders : List OrderData) (decision : DecisionData) : DecisionData :=
  let baseConfidence := decision.confidence
  let history :=
    getAssoc confidenceStats (decision.dtype.str ++ ":" ++ baseConfidence.str)
  let calibration := calibrateConfidence baseConfidence history
  let baselineMetrics := buildOutcomeBaselineMetrics assumedShippingCost cogs
    ⟨decision.dtype, decision.dataJson⟩ orders
  { decision with
    confidence := calibration.confidence
    dataJson :=
      { decision.dataJson with
        confidenceHistoryRate := calibration.successRate
        confidenceHistoryTotal := calibration.total
        outcomeBaseline := some (baselineMetrics.getD ⟨0, 0, 0, 0⟩) } }

/-- The three `dataJson` fields written onto the resurfacing candidate.
`newDecision.dataJson` is the spread copy's *shared* reference to the sorted
element's payload, so the mutation lands on entry `c.1.idx` as well. -/
def markEntryResurfaced (c : NewDecisionRef × IgnoredSel) (e : RunEntry) : RunEntry :=
  if e.idx = c.1.idx then
    { e with
      decision :=
        { e.decision with
          dataJson :=
            { e.decision.dataJson with
              resurfacedFromImpact := some c.2.impact
              resurfacedFromDecisionId := some c.2.id
              isResurfaced := true } } }
  else e

/-- The guarded `resurfacedAt` write of `generateDecisions`: when a
resurfacing candidate exists and clears the minimum-impact threshold, the
ignored row it points at gets its resurfaced marker set. -/
def applyResurfacingMark (now minImpactThreshold : ℚ)
    (resurf : Option (NewDecisionRef × IgnoredSel))
    (decisions : List Decision) : List Decision :=
  match resurf with
  | some c =>
      if c.1.impact ≥ minImpactThreshold then
        decisions.map
          (fun d => if d.id = c.2.id then { d with resurfacedAt := some now } else d)
      else decisions
  | none => decisions

/-- The aliasing effect of the resurfacing mutation on the run's entries:
when the candidate clears the threshold, entry `idx`'s payload carries the
resurfacing fields (the spread copy shares the `dataJson` reference). -/
def applyResurfacingToEntries (resurf : Option (NewDecisionRef × IgnoredSel))
    (minImpact : ℚ) (entries : List RunEntry) : List RunEntry :=
  match resurf with
  | some c =>
      if c.1.impact ≥ minImpact then entries.map (markEntryResurfaced c)
      else entries
  | none => entries

/-- The force-include step over the `activeDecisions` array.  `includes` is
reference equality: the spread copy (`Sum.inr`) is never an element of the
`slice(0, 3)` result, whose members are all `Sum.inl`. -/
def computeActiveFinal (resurf : Option (NewDecisionRef × IgnoredSel))
    (minImpactThreshold : ℚ) (activeInit : List ActiveRef) : List ActiveRef :=
  match resurf with
  | some c =>
      if c.1.impact ≥ minImpactThreshold then
        if ActiveRef.copy c.1.idx ∈ activeInit then activeInit
        else if activeInit.length < 3 then activeInit ++ [ActiveRef.copy c.1.idx]
        else activeInit.dropLast ++ [ActiveRef.copy c.1.idx]
      else activeInit
  | none => activeInit

/-- The `prisma.decision.create` row for one run entry. -/
def mkNewRow (runId : String) (now : ℚ) (activeFinal : List ActiveRef)
    (e : RunEntry) : Decision :=
  let isTopThree := decide (ActiveRef.original e.idx ∈ activeFinal)
  { id := runId ++ ":" ++ toString e.idx
    dtype := e.decision.dtype
    status := if isTopThree then .active else .done
    impact := e.decision.impact
    confidence := e.decision.confidence
    dataJson := e.decision.dataJson
    runId := some runId
    decisionKey := e.decisionKey
    generatedAt := now
    completedAt := if isTopThree then none else some now }

/-- Model of `generateDecisions`: one full engine run.  `cogs` stands for the variant
cost lookup, `runId` for the id the store assigns to the new `DecisionRun`
row (new decision rows get ids derived from it).  Returns
`(created, activeDecisions)` and the post-run state. -/
def generateDecisions (cogs : String → Option ℚ) (now : ℚ) (runId : String)
    (orders : List OrderData) (st : DbState) :
    (ℕ × List DecisionData) × DbState :=
  let shopSettings := st.shopRow
  let minImpactThreshold := effectiveMinImpact shopSettings
  let shopRow := updatedShopRow shopSettings now orders.length
  let runs := st.runs ++ [DecisionRun.mk runId orders.length 90 now]
  let clearedDecisions := clearActiveDecisions now st.decisions
  if orders.length < MIN_ORDERS_FOR_DECISIONS then
    ((0, []), { st with shopRow := shopRow, runs := runs, decisions := clearedDecisions })
  else
    let confidenceStats := getConfidenceHistoryStats clearedDecisions st.outcomes
    let assumedShippingCost := shopSettings.assumedShippingCost
    let sortedDecisions :=
      sortDescBy (·.impact) (runDetectionRules cogs assumedShippingCost orders)
    let calibrated := sortedDecisions.map
      (applyCalibration confidenceStats assumedShippingCost cogs orders)
    let decisionKeys := calibrated.map generateDecisionKey
    let entries := (calibrated.zip decisionKeys).enum.map
      (fun p => RunEntry.mk p.1 p.2.1 p.2.2)
    let ignoredDecisions := clearedDecisions.filter
      (fun d =>
        decide (d.status = DecisionStatus.ignored) && decide (d.decisionKey ∈ decisionKeys))
    let resurfacingCandidate := pickResurfacingCandidate
      (entries.map (fun e => NewDecisionRef.mk e.idx e.decision.impact e.decisionKey))
      (ignoredDecisions.map toIgnoredRef)
    let entries2 := applyResurfacingToEntries resurfacingCandidate minImpactThreshold entries
    let decisionsAfterResurface :=
      applyResurfacingMark now minImpactThreshold resurfacingCandidate clearedDecisions
    let surfacedEntries :=
      entries2.filter (fun e => decide (e.decision.impact ≥ minImpactThreshold))
    let activeInit : List ActiveRef :=
      (surfacedEntries.take 3).map (fun e => ActiveRef.original e.idx)
    let activeFinal := computeActiveFinal resurfacingCandidate minImpactThreshold activeInit
    let newRows := entries2.map (mkNewRow runId now activeFinal)
    let activeDecisions := activeFinal.filterMap
      (fun tag => (entries2.find? (fun e => e.idx = activeTagIdx tag)).map (·.decision))
    ((entries2.length, activeDecisions),
      { shopRow := shopRow
        runs := runs
        decisions := decisionsAfterResurface ++ newRows
        outcomes := st.outcomes })

/-! ## Helper lemmas: folds, association lists, stable sorts -/

theorem foldl_preserves {α β : Type} {P : β → Prop} {f : β → α → β}
    (h : ∀ b a, P b → P (f b a)) :
    ∀ (l : List α) (b : β), P b → P (l.foldl f b) := by
  intro l
  induction l with
  | nil => intro b hb; exact hb
  | cons x xs ih => intro b hb; exact ih (f b x) (h b x hb)

theorem getAssoc_setAssoc {β : Type} (m : List (String × β)) (k k' : String) (v : β) :
    getAssoc (setAssoc m k v) k' = if k = k' then some v else getAssoc m k' := by
  induction m with
  | nil => simp [setAssoc, getAssoc]
  | cons kv rest ih =>
      obtain ⟨k₀, v₀⟩ := kv
      by_cases h : k₀ = k
      · subst h
        simp only [setAssoc, if_pos rfl, getAssoc]
        split_ifs with h1 <;> simp [getAssoc, h1]
      · simp only [setAssoc, if_neg h, getAssoc]
        split_ifs with h1 h2 <;> simp_all [getAssoc]

theorem getAssoc_mem {β : Type} {m : List (String × β)} {k : String} {v : β}
    (h : getAssoc m k = some v) : (k, v) ∈ m := by
  induction m with
  | nil => simp [getAssoc] at h
  | cons kv rest ih =>
      obtain ⟨k₀, v₀⟩ := kv
      simp only [getAssoc] at h
      by_cases hk : k₀ = k
      · subst hk
        rw [if_pos rfl] at h
        obtain rfl := Option.some.inj h
        exact List.mem_cons_self _ _
      · rw [if_neg hk] at h
        exact List.mem_cons_of_mem _ (ih h)

theorem mem_setAssoc {β : Type} {m : List (String × β)} {k : String} {v : β}
    {kv : String × β} (h : kv ∈ setAssoc m k v) : kv = (k, v) ∨ kv ∈ m := by
  induction m with
  | nil => simpa [setAssoc] using h
  | cons kv₀ rest ih =>
      obtain ⟨k₀, v₀⟩ := kv₀
      by_cases hk : k₀ = k
      · subst hk
        have hset : setAssoc ((k₀, v₀) :: rest) k₀ v = (k₀, v) :: rest := by
          simp [setAssoc]
        rw [hset] at h
        rcases List.mem_cons.mp h with h | h
        · exact Or.inl h
        · exact Or.inr (List.mem_cons_of_mem _ h)
      · have hset : setAssoc ((k₀, v₀) :: rest) k v = (k₀, v₀) :: setAssoc rest k v := by
          simp [setAssoc, hk]
        rw [hset] at h
        rcases List.mem_cons.mp h with h | h
        · exact Or.inr (by simp [h])
        · rcases ih h with h' | h'
          · exact Or.inl h'
          · exact Or.inr (List.mem_cons_of_mem _ h')

theorem getAssoc_foldl_setAssoc {β : Type} (l : List (String × β)) :
    ∀ (acc : List (String × β)) (k : String) (v : β),
      getAssoc (l.foldl (fun m kv => setAssoc m kv.1 kv.2) acc) k = some v →
      (k, v) ∈ l ∨ getAssoc acc k = some v := by
  induction l with
  | nil => intro acc k v h; exact Or.inr h
  | cons kv₀ tl ih =>
      intro acc k v h
      rcases ih (setAssoc acc kv₀.1 kv₀.2) k v h with h1 | h2
      · exact Or.inl (List.mem_cons_of_mem _ h1)
      · rw [getAssoc_setAssoc] at h2
        by_cases hk : kv₀.1 = k
        · rw [if_pos hk, Option.some.injEq] at h2
          left
          have : (k, v) = kv₀ := by
            obtain ⟨k₀, v₀⟩ := kv₀
            simp only at hk h2
            simp [hk, h2]
          simp [this]
        · rw [if_neg hk] at h2
          exact Or.inr h2

theorem getAssoc_mapOfEntries_mem {β : Type} {l : List (String × β)} {k : String}
    {v : β} (h : getAssoc (mapOfEntries l) k = some v) : (k, v) ∈ l := by
  rcases getAssoc_foldl_setAssoc l [] k v h with h1 | h2
  · exact h1
  · simp [getAssoc] at h2

theorem mem_insertDescBy {α : Type} (key : α → ℚ) (x : α) (l : List α) (a : α) :
    a ∈ insertDescBy key x l ↔ a = x ∨ a ∈ l := by
  induction l with
  | nil => simp [insertDescBy]
  | cons y ys ih =>
      simp only [insertDescBy]
      split_ifs
      · simp
      · simp only [List.mem_cons, ih]
        tauto

theorem mem_sortDescBy {α : Type} (key : α → ℚ) (l : List α) (a : α) :
    a ∈ sortDescBy key l ↔ a ∈ l := by
  induction l with
  | nil => simp [sortDescBy]
  | cons x xs ih =>
      simp only [sortDescBy, mem_insertDescBy, ih, List.mem_cons]

theorem pairwise_insertDescBy {α : Type} (key : α → ℚ) (x : α) {l : List α}
    (h : l.Pairwise (fun a b => key b ≤ key a)) :
    (insertDescBy key x l).Pairwise (fun a b => key b ≤ key a) := by
  induction l with
  | nil => simp [insertDescBy]
  | cons y ys ih =>
      rw [List.pairwise_cons] at h
      simp only [insertDescBy]
      split_ifs with hxy
      · rw [List.pairwise_cons]
        constructor
        · intro b hb
          rcases List.mem_cons.mp hb with rfl | hb
          · exact hxy
          · exact le_trans (h.1 b hb) hxy
        · exact List.Pairwise.cons h.1 h.2
      · rw [List.pairwise_cons]
        constructor
        · intro b hb
          rcases (mem_insertDescBy key x ys b).mp hb with rfl | hb
          · exact le_of_lt (lt_of_not_ge hxy)
          · exact h.1 b hb
        · exact ih h.2

theorem pairwise_sortDescBy {α : Type} (key : α → ℚ) (l : List α) :
    (sortDescBy key l).Pairwise (fun a b => key b ≤ key a) := by
  induction l with
  | nil => simp [sortDescBy]
  | cons x xs ih => exact pairwise_insertDescBy key x ih

theorem sortDescBy_head_max {α : Type} (key : α → ℚ) {l : List α} {x : α}
    {xs : List α} (h : sortDescBy key l = x :: xs) :
    ∀ a ∈ l, key a ≤ key x := by
  intro a ha
  have hmem : a ∈ x :: xs := h ▸ (mem_sortDescBy key l a).mpr ha
  rcases List.mem_cons.mp hmem with rfl | hmem
  · exact le_refl _
  · have hp := pairwise_sortDescBy key l
    rw [h, List.pairwise_cons] at hp
    exact hp.1 a hmem

theorem nodup_length_le_of_subset {α : Type} [DecidableEq α] {d L : List α}
    (hd : d.Nodup) (hsub : ∀ a ∈ d, a ∈ L) : d.length ≤ L.length := by
  calc d.length = d.toFinset.card := (List.toFinset_card_of_nodup hd).symm
    _ ≤ L.toFinset.card :=
        Finset.card_le_card
          (fun a ha => List.mem_toFinset.mpr (hsub a (List.mem_toFinset.mp ha)))
    _ ≤ L.length := L.toFinset_card_le

/- Rational arithmetic is `@[irreducible]` in the library; witnesses evaluate
concrete runs by `decide`, which needs these operations to reduce. -/
attribute [local semireducible] Rat.mul Rat.inv Rat.add Rat.sub

/-! ## C1: the net-profit identity of the Profit Calculator -/

/-- The unknown-cost invariant of the accumulation: an entry for a variant
whose cost lookup is empty carries a zero `cogs` and a zero total-cost
accumulator. -/
def UnknownCostInv (cogs : String → Option ℚ)
    (m : List (String × VariantProfitMetrics)) : Prop :=
  ∀ kv ∈ m, cogs kv.1 = none → kv.2.cogs = 0 ∧ kv.2.totalCOGS = 0

theorem processLineItem_unknownCost (cogs : String → Option ℚ) (ship : ℚ)
    (order : OrderData) (refunds : List (String × (ℚ × ℚ)))
    (m : List (String × VariantProfitMetrics)) (item : OrderLineItem)
    (hm : UnknownCostInv cogs m) :
    UnknownCostInv cogs (processLineItem cogs ship order refunds m item) := by
  cases hvid : item.variantId with
  | none => simpa only [processLineItem, hvid] using hm
  | some vid =>
      by_cases hempty : vid = ""
      · simp only [processLineItem, hvid, if_pos hempty]
        exact hm
      · simp only [processLineItem, hvid, if_neg hempty, UnknownCostInv]
        intro kv hkv hnone
        rcases mem_setAssoc hkv with rfl | hkv'
        · simp only at hnone
          cases hga : getAssoc m vid with
          | none =>
              simp [hga, initVariantMetrics, hnone]
          | some v =>
              have hv := hm (vid, v) (getAssoc_mem hga) hnone
              simp only [hga, Option.getD_some]
              rw [hv.1, hv.2]
              simp
        · exact hm kv hkv' hnone

theorem processOrder_unknownCost (cogs : String → Option ℚ) (ship : ℚ)
    (m : List (String × VariantProfitMetrics)) (order : OrderData)
    (hm : UnknownCostInv cogs m) :
    UnknownCostInv cogs (processOrder cogs ship m order) :=
  foldl_preserves
    (fun m item h => processLineItem_unknownCost cogs ship order _ m item h)
    order.lineItems m hm

theorem accumulate_unknownCostInv (cogs : String → Option ℚ) (ship : ℚ)
    (orders : List OrderData) :
    UnknownCostInv cogs (orders.foldl (processOrder cogs ship) []) :=
  foldl_preserves (fun m o h => processOrder_unknownCost cogs ship m o h)
    orders [] (by intro kv hkv; simp at hkv)

/-- C1: for every variant in the map returned by `calculateVariantProfits`,
`netProfit = revenue − totalCOGS − allocated shipping − totalDiscounts −
refundedRevenue`; a variant with no known unit cost has a zero total-cost
accumulator; `marginPercent = netProfit / revenue × 100` when `revenue > 0`
and `0` otherwise; and the same identity holds for the order-level metrics of
`calculateOrderProfit`. -/
theorem C1_netProfit_identity (cogs : String → Option ℚ) (ship : ℚ)
    (orders : List OrderData) :
    (∀ kv ∈ calculateVariantProfits cogs ship orders,
      kv.2.netProfit =
        kv.2.revenue - kv.2.totalCOGS - kv.2.assumedShipping -
          kv.2.totalDiscounts - kv.2.refundedRevenue ∧
      kv.2.marginPercent =
        (if kv.2.revenue > 0 then kv.2.netProfit / kv.2.revenue * 100 else 0) ∧
      (cogs kv.1 = none → kv.2.totalCOGS = 0)) ∧
    (∀ order : OrderData,
      (calculateOrderProfit cogs order ship).netProfit =
        (calculateOrderProfit cogs order ship).revenue -
          (calculateOrderProfit cogs order ship).cogs -
          (calculateOrderProfit cogs order ship).shipping -
          (calculateOrderProfit cogs order ship).discounts -
          (calculateOrderProfit cogs order ship).refunds ∧
      (calculateOrderProfit cogs order ship).marginPercent =
        (if (calculateOrderProfit cogs order ship).revenue > 0 then
          (calculateOrderProfit cogs order ship).netProfit /
            (calculateOrderProfit cogs order ship).revenue * 100
        else 0)) := by
  constructor
  · intro kv hkv
    unfold calculateVariantProfits at hkv
    rcases List.mem_map.mp hkv with ⟨kv₀, hkv₀, rfl⟩
    refine ⟨?_, ?_, ?_⟩
    · simp [finalizeVariantMetrics]
    · simp [finalizeVariantMetrics]
    · intro hnone
      have hinv := accumulate_unknownCostInv cogs ship orders kv₀ hkv₀ hnone
      simp [finalizeVariantMetrics, hinv.2]
  · intro order
    constructor
    · simp [calculateOrderProfit]
    · simp [calculateOrderProfit]

def C1cogs : String → Option ℚ := fun _ => none

def C1order : OrderData :=
  { id := "o1", createdAt := 0, totalPrice := 20, subtotalPrice := 20,
    totalDiscounts := 0, financialStatus := "paid", refunds := [],
    lineItems := [{ id := "li1", quantity := 2, price := 10, discountedPrice := 8,
                    variantId := some "v1", sku := some "S1" }] }

def C1metrics : VariantProfitMetrics :=
  { variantId := "v1", sku := some "S1", unitsSold := 2, ordersCount := 1,
    revenue := 20, averagePrice := 10, cogs := 0, totalCOGS := 0,
    assumedShipping := 7/2, totalDiscounts := 4, discountRate := 20,
    refundedRevenue := 0, refundedUnits := 0, refundRate := 0,
    grossProfit := 20, netProfit := 25/2, marginPercent := 125/2 }

theorem C1_netProfit_identity_witness :
    (C1metrics.netProfit =
        C1metrics.revenue - C1metrics.totalCOGS - C1metrics.assumedShipping -
          C1metrics.totalDiscounts - C1metrics.refundedRevenue ∧
      C1metrics.marginPercent =
        (if C1metrics.revenue > 0 then
          C1metrics.netProfit / C1metrics.revenue * 100
        else 0) ∧
      (C1cogs "v1" = none → C1metrics.totalCOGS = 0)) ∧
    ((calculateOrderProfit C1cogs C1order (7/2)).netProfit =
        (calculateOrderProfit C1cogs C1order (7/2)).revenue -
          (calculateOrderProfit C1cogs C1order (7/2)).cogs -
          (calculateOrderProfit C1cogs C1order (7/2)).shipping -
          (calculateOrderProfit C1cogs C1order (7/2)).discounts -
          (calculateOrderProfit C1cogs C1order (7/2)).refunds ∧
      (calculateOrderProfit C1cogs C1order (7/2)).marginPercent =
        (if (calculateOrderProfit C1cogs C1order (7/2)).revenue > 0 then
          (calculateOrderProfit C1cogs C1order (7/2)).netProfit /
            (calculateOrderProfit C1cogs C1order (7/2)).revenue * 100
        else 0)) :=
  ⟨(C1_netProfit_identity C1cogs (7/2) [C1order]).1 ("v1", C1metrics) (by decide),
   (C1_netProfit_identity C1cogs (7/2) [C1order]).2 C1order⟩

/-! ## C9: confidence calibration -/

/-- C9: `calibrateConfidence` returns the base confidence unchanged when the
bucket has fewer than 5 evaluated outcomes; otherwise it promotes medium to
high at a success rate of at least 70%, demotes medium to low at 30% or
below, promotes low to medium at 70%, and never changes high. -/
theorem C9_calibrateConfidence (base : ConfidenceLevel) (s : ConfidenceStats) :
    (calibrateConfidence base none = { confidence := base }) ∧
    (s.total < 5 → calibrateConfidence base (some s) = { confidence := base }) ∧
    (5 ≤ s.total → base = .medium → 7/10 ≤ s.successRate →
      (calibrateConfidence base (some s)).confidence = .high) ∧
    (5 ≤ s.total → base = .medium → s.successRate ≤ 3/10 →
      (calibrateConfidence base (some s)).confidence = .low) ∧
    (5 ≤ s.total → base = .medium → 3/10 < s.successRate → s.successRate < 7/10 →
      (calibrateConfidence base (some s)).confidence = .medium) ∧
    (5 ≤ s.total → base = .low → 7/10 ≤ s.successRate →
      (calibrateConfidence base (some s)).confidence = .medium) ∧
    (5 ≤ s.total → base = .low → s.successRate < 7/10 →
      (calibrateConfidence base (some s)).confidence = .low) ∧
    (∀ h : Option ConfidenceStats, (calibrateConfidence .high h).confidence = .high) := by
  refine ⟨rfl, ?_, ?_, ?_, ?_, ?_, ?_, ?_⟩
  · intro h5
    simp [calibrateConfidence, h5]
  · intro h5 hb hr
    subst hb
    simp [calibrateConfidence, Nat.not_lt.mpr h5, hr]
  · intro h5 hb hr
    subst hb
    have : ¬ (7/10 : ℚ) ≤ s.successRate := by
      intro hcon
      linarith
    simp [calibrateConfidence, Nat.not_lt.mpr h5, this, hr]
  · intro h5 hb hr1 hr2
    subst hb
    simp [calibrateConfidence, Nat.not_lt.mpr h5, not_le.mpr hr2, not_le.mpr hr1]
  · intro h5 hb hr
    subst hb
    simp [calibrateConfidence, Nat.not_lt.mpr h5, hr]
  · intro h5 hb hr
    subst hb
    simp [calibrateConfidence, Nat.not_lt.mpr h5, not_le.mpr hr]
  · intro h
    cases h with
    | none => rfl
    | some s' =>
        by_cases h5 : s'.total < 5
        · simp [calibrateConfidence, h5]
        · simp [calibrateConfidence, h5]

theorem C9_calibrateConfidence_witness :
    (calibrateConfidence .medium (some ⟨5, 4, 4/5⟩)).confidence = .high :=
  (C9_calibrateConfidence .medium ⟨5, 4, 4/5⟩).2.2.1 (by decide) rfl (by norm_num)

/-! ## C5: outcome classification -/

/-- Count of the improvement flags: profit delta at least half a currency
unit, refund-rate drop at least two percentage points, shipping-loss drop at
least half a currency unit. -/
def improvementCount (baseline post : DecisionOutcomeMetrics) : ℕ :=
  [decide (post.netProfitPerOrder - baseline.netProfitPerOrder ≥ 1/2),
   decide (baseline.refundRate - post.refundRate ≥ 2),
   decide (baseline.shippingLossPerOrder - post.shippingLossPerOrder ≥ 1/2)].count true

/-- Count of the worsening flags (the mirrored tolerances). -/
def worseningCount (baseline post : DecisionOutcomeMetrics) : ℕ :=
  [decide (post.netProfitPerOrder - baseline.netProfitPerOrder ≤ -(1/2)),
   decide (baseline.refundRate - post.refundRate ≤ -2),
   decide (baseline.shippingLossPerOrder - post.shippingLossPerOrder ≤ -(1/2))].count true

/-- Each delta is flagged improved or worsened, never both, so at most three
flags are raised in total. -/
theorem counts_sum_le_three (b p : DecisionOutcomeMetrics) :
    improvementCount b p + worseningCount b p ≤ 3 := by
  have hc : ∀ (x y z : Bool), [x, y, z].count true = x.toNat + y.toNat + z.toNat := by
    decide
  have hpair : ∀ (P W : Prop) [Decidable P] [Decidable W], ¬(P ∧ W) →
      (decide P).toNat + (decide W).toNat ≤ 1 := by
    intro P W _ _ hnot
    by_cases hP : P <;> by_cases hW : W <;> simp [hP, hW]
    exact hnot ⟨hP, hW⟩
  unfold improvementCount worseningCount
  rw [hc, hc]
  have b1 := hpair (p.netProfitPerOrder - b.netProfitPerOrder ≥ 1/2)
    (p.netProfitPerOrder - b.netProfitPerOrder ≤ -(1/2))
    (by rintro ⟨ha, hb⟩; linarith)
  have b2 := hpair (b.refundRate - p.refundRate ≥ 2)
    (b.refundRate - p.refundRate ≤ -2)
    (by rintro ⟨ha, hb⟩; linarith)
  have b3 := hpair (b.shippingLossPerOrder - p.shippingLossPerOrder ≥ 1/2)
    (b.shippingLossPerOrder - p.shippingLossPerOrder ≤ -(1/2))
    (by rintro ⟨ha, hb⟩; linarith)
  omega

/-- C5: `evaluateOutcomeStatus` classifies improved iff at least 2 of the 3
deltas clear their improvement tolerance, worsened iff at least 2 clear their
worsening tolerance, and no-change otherwise; and a decision whose post-window
scoped order count is below the minimum sample size is written `no_change`
without consulting the baseline. -/
theorem C5_outcome_classification :
    (∀ b p : DecisionOutcomeMetrics,
      (evaluateOutcomeStatus b p = .improved ↔ 2 ≤ improvementCount b p) ∧
      (evaluateOutcomeStatus b p = .worsened ↔ 2 ≤ worseningCount b p) ∧
      (evaluateOutcomeStatus b p = .no_change ↔
        improvementCount b p ≤ 1 ∧ worseningCount b p ≤ 1)) ∧
    (∀ (ship : ℚ) (cogsf : String → Option ℚ) (now : ℚ) (orders : List OrderData)
        (decision : Decision) (outcome : OutcomeRecord) (completedAt : ℚ)
        (pm : DecisionOutcomeMetrics),
      ¬ now < completedAt + outcome.windowDays.getD DEFAULT_OUTCOME_WINDOW_DAYS →
      computeOutcomeMetrics ship cogsf ⟨decision.dtype, decision.dataJson⟩
          (filterOrdersByDate orders completedAt
            (completedAt + outcome.windowDays.getD DEFAULT_OUTCOME_WINDOW_DAYS)) =
        some pm →
      pm.ordersCount < MIN_OUTCOME_ORDERS →
      evalOutcomeWrite ship cogsf now orders decision outcome completedAt =
        some ⟨some pm, .no_change⟩) := by
  constructor
  · intro b p
    have hsum := counts_sum_le_three b p
    have hdef : evaluateOutcomeStatus b p =
        (if 2 ≤ improvementCount b p then OutcomeStatus.improved
         else if 2 ≤ worseningCount b p then OutcomeStatus.worsened
         else OutcomeStatus.no_change) := rfl
    refine ⟨?_, ?_, ?_⟩ <;> rw [hdef] <;> split_ifs with hi hw <;>
      simp_all <;> omega
  · intro ship cogsf now orders decision outcome completedAt pm h1 h2 h3
    unfold evalOutcomeWrite
    rw [if_neg h1]
    simp only [h2]
    rw [if_pos h3]

def C5cogs : String → Option ℚ := fun _ => none

def C5order : OrderData :=
  { id := "o1", createdAt := 1, totalPrice := 20, subtotalPrice := 20,
    totalDiscounts := 0, financialStatus := "paid", refunds := [],
    lineItems := [{ id := "li1", quantity := 2, price := 10, discountedPrice := 8,
                    variantId := some "v1", sku := some "S1" }] }

def C5decision : Decision :=
  { id := "d1", dtype := .best_seller_loss, status := .done, impact := 0,
    confidence := .low, dataJson := { variantId := some "v1" },
    completedAt := some 0 }

def C5outcome : OutcomeRecord :=
  { id := "oc1", decisionId := "d1", baselineMetrics := ⟨1, 2, 3, 4⟩,
    windowDays := some 30 }

def C5post : DecisionOutcomeMetrics :=
  { netProfitPerOrder := 25/2, refundRate := 0, shippingLossPerOrder := 7/2,
    ordersCount := 3 }

def C5baseline : DecisionOutcomeMetrics :=
  { netProfitPerOrder := -26/100, refundRate := 12, shippingLossPerOrder := 110/100,
    ordersCount := 20 }

def C5postB : DecisionOutcomeMetrics :=
  { netProfitPerOrder := 18/100, refundRate := 6, shippingLossPerOrder := 60/100,
    ordersCount := 20 }

theorem C5_outcome_classification_witness :
    (evaluateOutcomeStatus C5baseline C5postB = .improved ↔
      2 ≤ improvementCount C5baseline C5postB) ∧
    evalOutcomeWrite (7/2) C5cogs 31 [C5order, C5order, C5order] C5decision
        C5outcome 0 = some ⟨some C5post, .no_change⟩ :=
  ⟨((C5_outcome_classification.1 C5baseline C5postB).1),
    C5_outcome_classification.2 (7/2) C5cogs 31 [C5order, C5order, C5order]
      C5decision C5outcome 0 C5post (by norm_num [C5outcome])
      (by decide) (by decide)⟩

/-! ## C7: per-line-item revenue and discount accumulation -/

def C7cogs : String → Option ℚ := fun _ => none

def C7item : OrderLineItem :=
  { id := "li1", quantity := 2, price := 10, discountedPrice := 8,
    variantId := some "v1", sku := some "S1" }

def C7order : OrderData :=
  { id := "o1", createdAt := 0, totalPrice := 20, subtotalPrice := 20,
    totalDiscounts := 4, financialStatus := "paid", refunds := [],
    lineItems := [C7item] }

/-- C7 counterexample: a line item with list price 10, discounted price 8 and
quantity 2 accumulates revenue 20 = list price × quantity, not the
discounted 16 = discounted price × quantity the claim states. -/
theorem C7_counterexample :
    ((calculateVariantProfits C7cogs (7/2) [C7order]).map (fun kv => kv.2.revenue)) =
      [20] ∧
    C7item.discountedPrice * C7item.quantity = 16 ∧ (20 : ℚ) ≠ 16 :=
  ⟨by decide, by decide, by norm_num⟩

/-- C7 amended: for every line item carrying a (non-empty) variant reference,
the revenue accumulated for that variant is the LIST unit price times
quantity, and the discount accumulated is (list price − discounted price) ×
quantity. -/
theorem C7_amended (cogs : String → Option ℚ) (ship : ℚ) (order : OrderData)
    (refunds : List (String × (ℚ × ℚ)))
    (m : List (String × VariantProfitMetrics)) (item : OrderLineItem)
    (vid : String) (hvid : item.variantId = some vid) (hne : vid ≠ "") :
    (getAssoc (processLineItem cogs ship order refunds m item) vid).map (·.revenue) =
      some (((getAssoc m vid).getD (initVariantMetrics cogs vid item)).revenue +
        item.price * item.quantity) ∧
    (getAssoc (processLineItem cogs ship order refunds m item) vid).map
        (·.totalDiscounts) =
      some (((getAssoc m vid).getD (initVariantMetrics cogs vid item)).totalDiscounts +
        (item.price * item.quantity - item.discountedPrice * item.quantity)) := by
  have hget : ∀ v : VariantProfitMetrics, getAssoc (setAssoc m vid v) vid = some v :=
    fun v => by rw [getAssoc_setAssoc, if_pos rfl]
  constructor
  · simp only [processLineItem, hvid, if_neg hne, hget]
    split_ifs <;> simp
  · simp only [processLineItem, hvid, if_neg hne, hget]
    split_ifs <;> simp

theorem C7_amended_witness :
    (getAssoc (processLineItem C7cogs (7/2) C7order [] [] C7item) "v1").map
        (·.revenue) =
      some (((getAssoc [] "v1").getD (initVariantMetrics C7cogs "v1" C7item)).revenue +
        C7item.price * C7item.quantity) ∧
    (getAssoc (processLineItem C7cogs (7/2) C7order [] [] C7item) "v1").map
        (·.totalDiscounts) =
      some (((getAssoc [] "v1").getD
          (initVariantMetrics C7cogs "v1" C7item)).totalDiscounts +
        (C7item.price * C7item.quantity -
          C7item.discountedPrice * C7item.quantity)) :=
  C7_amended C7cogs (7/2) C7order [] [] C7item "v1" (by decide) (by decide)

/-! ## C6: the Best-Seller Loss minimum-units guard -/

def C6cogs : String → Option ℚ := fun v => if v = "v1" then some (39/10) else none

def C6order : OrderData :=
  { id := "o1", createdAt := 0, totalPrice := 10, subtotalPrice := 10,
    totalDiscounts := 0, financialStatus := "paid", refunds := [],
    lineItems := [{ id := "li1", quantity := 5, price := 2, discountedPrice := 2,
                    variantId := some "v1", sku := none }] }

/-- C6 counterexample: the rule finds a losing best-seller (5 units sold,
net profit −13), yet returns no candidate — the `MIN_BEST_SELLER_UNITS`
guard fires before the low-confidence branch can be reached. -/
theorem C6_counterexample :
    detectBestSellerLoss C6cogs (7/2) [C6order] = none ∧
    ((getTopSellingVariants (calculateVariantProfits C6cogs (7/2) [C6order]) 20).filter
        (fun v => decide (v.netProfit < 0) || decide (v.marginPercent < 5))).map
      (·.unitsSold) = [5] :=
  ⟨by decide, by decide⟩

/-- C6 amended: when the worst offender by `unitsSold × |netProfit|` has
fewer than 10 units sold, the rule returns NO candidate (rather than a
low-confidence one); consequently any candidate it does return has
confidence high (≥20 units) or medium (≥10 units), never low. -/
theorem C6_amended (cogs : String → Option ℚ) (ship : ℚ) (orders : List OrderData) :
    (∀ (worst : VariantProfitMetrics) (rest : List VariantProfitMetrics),
      sortDescBy (fun v => v.unitsSold * |v.netProfit|)
          ((getTopSellingVariants (calculateVariantProfits cogs ship orders) 20).filter
            (fun v => decide (v.netProfit < 0) || decide (v.marginPercent < 5))) =
        worst :: rest →
      worst.unitsSold < MIN_BEST_SELLER_UNITS →
      detectBestSellerLoss cogs ship orders = none) ∧
    (∀ d : DecisionData,
      detectBestSellerLoss cogs ship orders = some d → d.confidence ≠ .low) := by
  constructor
  · intro worst rest hsort hunits
    simp only [detectBestSellerLoss]
    rw [hsort]
    exact if_pos hunits
  · intro d hd
    simp only [detectBestSellerLoss] at hd
    split at hd
    · exact absurd hd (by simp)
    · next worst rest heq =>
        split at hd
        · exact absurd hd (by simp)
        · next hten =>
            obtain rfl := Option.some.inj hd
            have h10 : MIN_BEST_SELLER_UNITS ≤ worst.unitsSold := not_lt.mp hten
            by_cases h20 : worst.unitsSold ≥ 20
            · simp [h20]
            · have : worst.unitsSold ≥ 10 := h10
              simp [h20, this]

theorem C6_amended_witness :
    detectBestSellerLoss C6cogs (7/2) [C6order] = none :=
  (C6_amended C6cogs (7/2) [C6order]).1
    { variantId := "v1", sku := none, unitsSold := 5, ordersCount := 1,
      revenue := 10, averagePrice := 2, cogs := 39/10, totalCOGS := 39/2,
      assumedShipping := 7/2, totalDiscounts := 0, discountRate := 0,
      refundedRevenue := 0, refundedUnits := 0, refundRate := 0,
      grossProfit := -19/2, netProfit := -13, marginPercent := -130 }
    [] (by decide) (by decide)

/-! ## C10: the thin-evidence short circuit still mutates state -/

/-- C10: a run with fewer than 30 orders returns zero candidates, yet before
short-circuiting it marks every previously-active decision done with a
completion timestamp, appends a new `DecisionRun` row, and updates the shop's
`lastOrderCount`/`lastAnalyzedAt`; the outcome table is untouched. -/
theorem C10_short_circuit (cogs : String → Option ℚ) (now : ℚ) (runId : String)
    (orders : List OrderData) (st : DbState)
    (h : orders.length < MIN_ORDERS_FOR_DECISIONS) :
    (generateDecisions cogs now runId orders st).1 = (0, []) ∧
    (generateDecisions cogs now runId orders st).2.decisions =
      st.decisions.map
        (fun d =>
          if d.status = DecisionStatus.active then
            { d with status := .done, completedAt := some now }
          else d) ∧
    (generateDecisions cogs now runId orders st).2.runs =
      st.runs ++ [DecisionRun.mk runId orders.length 90 now] ∧
    (generateDecisions cogs now runId orders st).2.shopRow.lastOrderCount =
      some orders.length ∧
    (generateDecisions cogs now runId orders st).2.shopRow.lastAnalyzedAt =
      some now ∧
    (generateDecisions cogs now runId orders st).2.outcomes = st.outcomes := by
  refine ⟨?_, ?_, ?_, ?_, ?_, ?_⟩ <;>
    simp [generateDecisions, h, clearActiveDecisions, updatedShopRow]

def C10decision : Decision :=
  { id := "d1", dtype := .best_seller_loss, status := .active, impact := 80,
    confidence := .high, dataJson := {} }

def C10st : DbState :=
  { shopRow := {}, decisions := [C10decision], runs := [], outcomes := [] }

theorem C10_short_circuit_witness :
    (generateDecisions (fun _ => none) 5 "r1" [] C10st).1 = (0, []) ∧
    (generateDecisions (fun _ => none) 5 "r1" [] C10st).2.decisions =
      C10st.decisions.map
        (fun d =>
          if d.status = DecisionStatus.active then
            { d with status := .done, completedAt := some 5 }
          else d) ∧
    (generateDecisions (fun _ => none) 5 "r1" [] C10st).2.runs =
      C10st.runs ++ [DecisionRun.mk "r1" 0 90 5] ∧
    (generateDecisions (fun _ => none) 5 "r1" [] C10st).2.shopRow.lastOrderCount =
      some 0 ∧
    (generateDecisions (fun _ => none) 5 "r1" [] C10st).2.shopRow.lastAnalyzedAt =
      some 5 ∧
    (generateDecisions (fun _ => none) 5 "r1" [] C10st).2.outcomes =
      C10st.outcomes :=
  C10_short_circuit (fun _ => none) 5 "r1" [] C10st (by decide)

/-! ## C4: evaluated outcomes and re-marking done -/

def C4decision : Decision :=
  { id := "d1", dtype := .best_seller_loss, status := .done, impact := 0,
    confidence := .low,
    dataJson := { outcomeBaseline := some ⟨5, 6, 7, 8⟩ }, completedAt := some 0 }

def C4outcome : OutcomeRecord :=
  { id := "oc1", decisionId := "d1", baselineMetrics := ⟨1, 2, 3, 4⟩,
    postMetrics := some ⟨9, 9, 9, 20⟩, outcomeStatus := some .improved,
    evaluatedAt := some 10, windowDays := some 30 }

def C4st : DbState :=
  { shopRow := {}, decisions := [C4decision], runs := [], outcomes := [C4outcome] }

/-- C4 counterexample: the decision's outcome has been evaluated (timestamp
10, status improved); calling `markDecisionDone` again clears the evaluated
timestamp, the post metrics and the status — the evaluated outcome is NOT
left intact. -/
theorem C4_counterexample :
    C4st.outcomes.map (fun o => (o.evaluatedAt, o.outcomeStatus)) =
      [(some 10, some .improved)] ∧
    (markDecisionDone 20 "d1" C4st).map
        (fun st => st.outcomes.map (fun o => (o.evaluatedAt, o.outcomeStatus))) =
      some [(none, none)] :=
  ⟨by decide, by decide⟩

theorem evalLoopStep_preserves_mem (ship : ℚ) (cogsf : String → Option ℚ)
    (now : ℚ) (orders : List OrderData)
    (obd : List (String × OutcomeRecord)) (r : OutcomeRecord)
    (hobd : ∀ k o, getAssoc obd k = some o → o.id ≠ r.id)
    (acc : ℕ × DbState) (decision : Decision)
    (hacc : r ∈ acc.2.outcomes) :
    r ∈ (evalLoopStep ship cogsf now orders obd acc decision).2.outcomes := by
  cases hga : getAssoc obd decision.id with
  | none =>
      cases hca : decision.completedAt <;>
        simp only [evalLoopStep, hga, hca] <;> exact hacc
  | some outcome =>
      cases hca : decision.completedAt with
      | none => simp only [evalLoopStep, hga, hca]; exact hacc
      | some completedAt =>
          cases hw : evalOutcomeWrite ship cogsf now orders decision outcome
              completedAt with
          | none => simp only [evalLoopStep, hga, hca, hw]; exact hacc
          | some w =>
              simp only [evalLoopStep, hga, hca, hw]
              have hne : outcome.id ≠ r.id := hobd _ _ hga
              have hfr : (if r.id = outcome.id then
                  { r with
                    postMetrics := w.postMetrics
                    outcomeStatus := some w.outcomeStatus
                    evaluatedAt := some now }
                else r) = r := if_neg (fun hc => hne hc.symm)
              exact List.mem_map.mpr ⟨r, hacc, hfr⟩

theorem evaluateDecisionOutcomes_preserves_evaluated (ship : ℚ)
    (cogsf : String → Option ℚ) (now : ℚ) (orders : List OrderData)
    (st : DbState) (hnodup : (st.outcomes.map (·.id)).Nodup)
    (r : OutcomeRecord) (hr : r ∈ st.outcomes) (t : ℚ)
    (ht : r.evaluatedAt = some t) :
    r ∈ (evaluateDecisionOutcomes ship cogsf now orders st).2.outcomes := by
  simp only [evaluateDecisionOutcomes]
  split
  · exact hr
  · split
    · exact hr
    · apply foldl_preserves (P := fun acc : ℕ × DbState => r ∈ acc.2.outcomes)
        ?_ _ _ hr
      intro acc decision hacc
      apply evalLoopStep_preserves_mem ship cogsf now orders _ r ?_ acc decision hacc
      intro k o hko
      have hmem := getAssoc_mapOfEntries_mem hko
      rcases List.mem_map.mp hmem with ⟨a, ha, heq⟩
      have h2 : a = o := congrArg Prod.snd heq
      rw [h2] at ha
      have hfo := List.of_mem_filter ha
      have hoin := List.mem_of_mem_filter ha
      intro hid
      have heqr : o = r := List.inj_on_of_nodup_map hnodup hoin hr hid
      simp only [Bool.and_eq_true, Option.isNone_iff_eq_none] at hfo
      rw [heqr] at hfo
      rw [hfo.2] at ht
      cases ht

/-- The row `markDecisionDone` writes when no outcome record exists yet. -/
theorem markDecisionDone_resets (now : ℚ) (did : String) (st st' : DbState)
    (h : markDecisionDone now did st = some st') :
    ∀ o ∈ st'.outcomes, o.decisionId = did →
      o.evaluatedAt = none ∧ o.postMetrics = none ∧ o.outcomeStatus = none := by
  unfold markDecisionDone at h
  cases hfind : st.decisions.find? (fun d => d.id = did) with
  | none => rw [hfind] at h; cases h
  | some decision =>
      rw [hfind] at h
      obtain rfl := Option.some.inj h
      intro o ho hdid
      by_cases hex : st.outcomes.any (fun o => o.decisionId = did) = true
      · rw [if_pos hex] at ho
        rcases List.mem_map.mp ho with ⟨o₀, ho₀, rfl⟩
        by_cases h₀ : o₀.decisionId = did
        · rw [if_pos h₀]
          exact ⟨rfl, rfl, rfl⟩
        · rw [if_neg h₀] at hdid ⊢
          exact absurd hdid h₀
      · rw [if_neg hex] at ho
        rcases List.mem_append.mp ho with ho' | ho'
        · exfalso
          simp only [Bool.not_eq_true, List.any_eq_false] at hex
          exact Bool.false_ne_true ((hex o ho').symm.trans (decide_eq_true hdid))
        · rcases List.mem_singleton.mp ho' with rfl
          exact ⟨rfl, rfl, rfl⟩

/-- C4 amended: once a `DecisionOutcome`'s `evaluatedAt` is set,
`evaluateDecisionOutcomes` never touches that record again (it only selects
records with a null `evaluatedAt`); but `markDecisionDone` on the same
decision does NOT leave the evaluated outcome intact — its upsert resets the
record, clearing `evaluatedAt`, `postMetrics` and `outcomeStatus`. -/
theorem C4_amended :
    (∀ (ship : ℚ) (cogsf : String → Option ℚ) (now : ℚ)
        (orders : List OrderData) (st : DbState),
      (st.outcomes.map (·.id)).Nodup →
      ∀ r ∈ st.outcomes, ∀ t : ℚ, r.evaluatedAt = some t →
      r ∈ (evaluateDecisionOutcomes ship cogsf now orders st).2.outcomes) ∧
    (∀ (now : ℚ) (did : String) (st st' : DbState),
      markDecisionDone now did st = some st' →
      ∀ o ∈ st'.outcomes, o.decisionId = did →
        o.evaluatedAt = none ∧ o.postMetrics = none ∧ o.outcomeStatus = none) :=
  ⟨fun ship cogsf now orders st hnodup r hr t ht =>
      evaluateDecisionOutcomes_preserves_evaluated ship cogsf now orders st
        hnodup r hr t ht,
    fun now did st st' h => markDecisionDone_resets now did st st' h⟩

def C4outcomeReset : OutcomeRecord :=
  { id := "oc1", decisionId := "d1", baselineMetrics := ⟨5, 6, 7, 8⟩,
    postMetrics := none, outcomeStatus := none, evaluatedAt := none,
    windowDays := some 30 }

def C4stPrime : DbState :=
  { shopRow := {},
    decisions := [{ C4decision with status := .done, completedAt := some 20 }],
    runs := [], outcomes := [C4outcomeReset] }

theorem C4_amended_witness :
    C4outcome ∈
      (evaluateDecisionOutcomes (7/2) (fun _ => none) 50 [] C4st).2.outcomes ∧
    (C4outcomeReset.evaluatedAt = none ∧ C4outcomeReset.postMetrics = none ∧
      C4outcomeReset.outcomeStatus = none) :=
  ⟨C4_amended.1 (7/2) (fun _ => none) 50 [] C4st (by decide) C4outcome
      (by decide) 10 (by decide),
    C4_amended.2 20 "d1" C4st C4stPrime (by decide) C4outcomeReset
      (by decide) (by decide)⟩

/-! ## C8: the Free-Shipping Trap firing condition -/

theorem bestClusterFold_fst_none {vals : List ℚ}
    (h : (bestClusterFold vals).1 = none) : (bestClusterFold vals).2 = 0 := by
  have hstep : ∀ (acc : Option ℚ × ℕ) (threshold : ℚ),
      (acc.1 = none → acc.2 = 0) →
      ((fun (acc : Option ℚ × ℕ) threshold =>
          let nearMissCount :=
            (vals.filter
              (fun v => decide (v < threshold) && decide (v ≥ threshold - 5))).length
          if nearMissCount > acc.2 then (some threshold, nearMissCount) else acc)
        acc threshold).1 = none →
      ((fun (acc : Option ℚ × ℕ) threshold =>
          let nearMissCount :=
            (vals.filter
              (fun v => decide (v < threshold) && decide (v ≥ threshold - 5))).length
          if nearMissCount > acc.2 then (some threshold, nearMissCount) else acc)
        acc threshold).2 = 0 := by
    intro acc threshold hP
    dsimp only
    split
    · intro h1; cases h1
    · exact hP
  exact foldl_preserves (P := fun acc : Option ℚ × ℕ => acc.1 = none → acc.2 = 0)
    hstep SHIPPING_THRESHOLDS (none, 0) (fun _ => rfl) h

def C8paidOrder : OrderData :=
  { id := "p", createdAt := 0, totalPrice := 46, subtotalPrice := 46,
    totalDiscounts := 0, financialStatus := "paid", refunds := [], lineItems := [] }

def C8pendingOrder : OrderData :=
  { id := "u", createdAt := 0, totalPrice := 46, subtotalPrice := 46,
    totalDiscounts := 0, financialStatus := "pending", refunds := [], lineItems := [] }

def C8orders : List OrderData :=
  List.replicate 20 C8pendingOrder ++ List.replicate 10 C8paidOrder

/-- C8 counterexample: 30 total orders, of which only 10 are paid; all 10
paid subtotals cluster in the band below 50, which is at least 15% of the 30
total orders — yet the rule returns no candidate, because its gates count
PAID orders (10 < 30), not total orders as the claim states. -/
theorem C8_counterexample :
    detectFreeShippingTrap (7/2) C8orders = none ∧
    C8orders.length = 30 ∧
    (bestClusterFold (paidOrderValues C8orders)).2 = 10 ∧
    (15 : ℚ) ≤ ((bestClusterFold (paidOrderValues C8orders)).2 : ℚ) /
        (C8orders.length : ℚ) * 100 :=
  ⟨by decide, by decide, by decide, by decide⟩

/-- C8 amended: with PAID orders as the base of both gates, the rule fires
iff there are at least 30 paid orders and the winning cluster is at least
15% of the paid orders; when it fires, impact = clusterCount ×
assumedShippingCost × 30 / 90 (the 90-day window normalized to a month) and
confidence is high at a cluster share of at least 25%, medium at 18%,
otherwise low. -/
theorem C8_amended (ship : ℚ) (orders : List OrderData) :
    ((paidOrderValues orders).length < 30 →
      detectFreeShippingTrap ship orders = none) ∧
    (30 ≤ (paidOrderValues orders).length →
      ((bestClusterFold (paidOrderValues orders)).2 : ℚ) /
          ((paidOrderValues orders).length : ℚ) * 100 < 15 →
      detectFreeShippingTrap ship orders = none) ∧
    (30 ≤ (paidOrderValues orders).length →
      15 ≤ ((bestClusterFold (paidOrderValues orders)).2 : ℚ) /
          ((paidOrderValues orders).length : ℚ) * 100 →
      detectFreeShippingTrap ship orders ≠ none) ∧
    (∀ d : DecisionData, detectFreeShippingTrap ship orders = some d →
      30 ≤ (paidOrderValues orders).length ∧
      15 ≤ ((bestClusterFold (paidOrderValues orders)).2 : ℚ) /
          ((paidOrderValues orders).length : ℚ) * 100 ∧
      d.impact = ((bestClusterFold (paidOrderValues orders)).2 : ℚ) * ship * 30 / 90 ∧
      d.confidence =
        (if ((bestClusterFold (paidOrderValues orders)).2 : ℚ) /
            ((paidOrderValues orders).length : ℚ) * 100 ≥ 25 then
          ConfidenceLevel.high
        else if ((bestClusterFold (paidOrderValues orders)).2 : ℚ) /
            ((paidOrderValues orders).length : ℚ) * 100 ≥ 18 then
          ConfidenceLevel.medium
        else ConfidenceLevel.low)) := by
  refine ⟨?_, ?_, ?_, ?_⟩
  · intro h
    simp only [detectFreeShippingTrap]
    rw [if_pos h]
  · intro h30 hrate
    simp only [detectFreeShippingTrap]
    rw [if_neg (not_lt.mpr h30)]
    cases hbt : (bestClusterFold (paidOrderValues orders)).1 with
    | none => rfl
    | some t => exact if_pos hrate
  · intro h30 hrate
    simp only [detectFreeShippingTrap]
    rw [if_neg (not_lt.mpr h30)]
    cases hbt : (bestClusterFold (paidOrderValues orders)).1 with
    | none =>
        exfalso
        rw [bestClusterFold_fst_none hbt] at hrate
        norm_num at hrate
    | some t =>
        simp [not_lt.mpr hrate]
  · intro d hd
    simp only [detectFreeShippingTrap] at hd
    split at hd
    · cases hd
    · next h30 =>
        split at hd
        · cases hd
        · next t hbt =>
            split at hd
            · cases hd
            · next hrate =>
                obtain rfl := Option.some.inj hd
                exact ⟨not_lt.mp h30, not_lt.mp hrate, rfl, rfl⟩

theorem C8_amended_witness :
    detectFreeShippingTrap (7/2) (List.replicate 35 C8paidOrder) ≠ none ∧
    detectFreeShippingTrap (7/2) C8orders = none :=
  ⟨(C8_amended (7/2) (List.replicate 35 C8paidOrder)).2.2.1 (by decide) (by decide),
    (C8_amended (7/2) C8orders).1 (by decide)⟩

/-! ## C3: resurfacing is guarded and at-most-once -/

theorem pick_mem {news : List NewDecisionRef} {refs : List IgnoredRef}
    {c : NewDecisionRef × IgnoredSel}
    (h : pickResurfacingCandidate news refs = some c) :
    c ∈ resurfacingCandidates news refs := by
  unfold pickResurfacingCandidate at h
  cases hs : sortDescBy (fun c => c.1.impact) (resurfacingCandidates news refs) with
  | nil => rw [hs] at h; cases h
  | cons x xs =>
      rw [hs] at h
      obtain rfl := Option.some.inj h
      exact (mem_sortDescBy _ _ x).mp (hs ▸ List.mem_cons_self x xs)

theorem pick_max {news : List NewDecisionRef} {refs : List IgnoredRef}
    {c : NewDecisionRef × IgnoredSel}
    (h : pickResurfacingCandidate news refs = some c) :
    ∀ p ∈ resurfacingCandidates news refs, p.1.impact ≤ c.1.impact := by
  intro p hp
  unfold pickResurfacingCandidate at h
  cases hs : sortDescBy (fun c => c.1.impact) (resurfacingCandidates news refs) with
  | nil => rw [hs] at h; cases h
  | cons x xs =>
      rw [hs] at h
      obtain rfl := Option.some.inj h
      exact sortDescBy_head_max (fun c => c.1.impact) hs p hp

theorem mem_resurfacingCandidates {news : List NewDecisionRef}
    {refs : List IgnoredRef} {p : NewDecisionRef × IgnoredSel}
    (h : p ∈ resurfacingCandidates news refs) :
    p.1 ∈ news ∧ ∃ ref ∈ refs, ref.resurfacedAt = none ∧
      ref.decisionKey = p.1.decisionKey ∧
      p.2 = IgnoredSel.mk ref.id ref.decisionKey ref.impact ∧
      ref.impact * (3/2) ≤ p.1.impact := by
  unfold resurfacingCandidates at h
  rcases List.mem_filterMap.mp h with ⟨dref, hdref, hfm⟩
  cases hga : getAssoc
      (mapOfEntries
        ((refs.filter (fun d => d.resurfacedAt.isNone)).map
          (fun d => (d.decisionKey, d))))
      dref.decisionKey with
  | none => rw [hga] at hfm; cases hfm
  | some ig =>
      rw [hga] at hfm
      have hfm2 : (if dref.impact ≥ ig.impact * (3/2) then
          some (dref, IgnoredSel.mk ig.id ig.decisionKey ig.impact)
        else none) = some p := hfm
      split_ifs at hfm2 with himp
      · obtain rfl := Option.some.inj hfm2
        have hmem := getAssoc_mapOfEntries_mem hga
        rcases List.mem_map.mp hmem with ⟨ref, href, heq⟩
        have h2 : ref = ig := congrArg Prod.snd heq
        have hkey : ref.decisionKey = dref.decisionKey := congrArg Prod.fst heq
        have hfil := List.of_mem_filter href
        have hrin := List.mem_of_mem_filter href
        subst h2
        exact ⟨hdref, ref, hrin, Option.isNone_iff_eq_none.mp hfil, hkey, rfl, himp⟩

/-- C3: over the resurfacing step of a run (`pickResurfacingCandidate`
composed with the guarded `resurfacedAt` write): a row whose resurfaced
marker is already set is never selected again, so its marker is unchanged;
and a row whose marker the run sets has a matching new candidate with the
same decision key, impact at least 1.5 times the row's recorded impact and
at least the minimum-impact threshold, maximal by impact among all eligible
pairs. -/
theorem C3_resurfacing (now minImpact : ℚ) (newRefs : List NewDecisionRef)
    (decisions ignored : List Decision)
    (hsub : ∀ x ∈ ignored, x ∈ decisions)
    (hnodup : (decisions.map (·.id)).Nodup)
    (d : Decision) (hd : d ∈ decisions) :
    (∀ t : ℚ, d.resurfacedAt = some t →
      ∀ d' ∈ applyResurfacingMark now minImpact
          (pickResurfacingCandidate newRefs (ignored.map toIgnoredRef)) decisions,
        d'.id = d.id → d'.resurfacedAt = some t) ∧
    (d.resurfacedAt = none →
      ∀ d' ∈ applyResurfacingMark now minImpact
          (pickResurfacingCandidate newRefs (ignored.map toIgnoredRef)) decisions,
        d'.id = d.id → d'.resurfacedAt ≠ none →
        ∃ c : NewDecisionRef,
          pickResurfacingCandidate newRefs (ignored.map toIgnoredRef) =
            some (c, IgnoredSel.mk d.id d.decisionKey d.impact) ∧
          c ∈ newRefs ∧ c.decisionKey = d.decisionKey ∧
          d.impact * (3/2) ≤ c.impact ∧ minImpact ≤ c.impact ∧
          ∀ p ∈ resurfacingCandidates newRefs (ignored.map toIgnoredRef),
            p.1.impact ≤ c.impact) := by
  have hrowOfRef : ∀ {ref : IgnoredRef}, ref ∈ ignored.map toIgnoredRef →
      ∃ y ∈ ignored, toIgnoredRef y = ref := by
    intro ref href
    rcases List.mem_map.mp href with ⟨y, hy, hyy⟩
    exact ⟨y, hy, hyy⟩
  constructor
  · intro t ht d' hd' hid
    cases hpick : pickResurfacingCandidate newRefs (ignored.map toIgnoredRef) with
    | none =>
        rw [hpick] at hd'
        have hd2 : d' ∈ decisions := hd'
        have : d' = d := List.inj_on_of_nodup_map hnodup hd2 hd hid
        rw [this, ht]
    | some c =>
        rw [hpick] at hd'
        have hd2 : d' ∈ (if c.1.impact ≥ minImpact then
            decisions.map
              (fun x => if x.id = c.2.id then { x with resurfacedAt := some now } else x)
          else decisions) := hd'
        split_ifs at hd2 with hthr
        · rcases List.mem_map.mp hd2 with ⟨x, hx, rfl⟩
          by_cases hxc : x.id = c.2.id
          · exfalso
            rw [if_pos hxc] at hid
            simp only at hid
            -- x = d, so the selected ignored id is d's id, but the selection
            -- only ever points at a row whose marker is unset.
            have hxd : x = d := List.inj_on_of_nodup_map hnodup hx hd hid
            rcases mem_resurfacingCandidates (pick_mem hpick) with
              ⟨-, ref, href, hrnone, -, hsel, -⟩
            rcases hrowOfRef href with ⟨y, hy, rfl⟩
            have hcy : c.2.id = y.id := by
              have := congrArg IgnoredSel.id hsel
              simpa [toIgnoredRef] using this
            have hyid : y.id = d.id := hcy.symm.trans (hxc.symm.trans hid)
            have hyd : y = d := List.inj_on_of_nodup_map hnodup (hsub y hy) hd hyid
            rw [hyd] at hrnone
            simp only [toIgnoredRef] at hrnone
            rw [ht] at hrnone
            cases hrnone
          · rw [if_neg hxc] at hid ⊢
            have : x = d := List.inj_on_of_nodup_map hnodup hx hd hid
            rw [this, ht]
        · have : d' = d := List.inj_on_of_nodup_map hnodup hd2 hd hid
          rw [this, ht]
  · intro h0 d' hd' hid hmark
    cases hpick : pickResurfacingCandidate newRefs (ignored.map toIgnoredRef) with
    | none =>
        rw [hpick] at hd'
        have hd2 : d' ∈ decisions := hd'
        exact absurd (by
          have : d' = d := List.inj_on_of_nodup_map hnodup hd2 hd hid
          rw [this, h0]) hmark
    | some c =>
        rw [hpick] at hd'
        have hd2 : d' ∈ (if c.1.impact ≥ minImpact then
            decisions.map
              (fun x => if x.id = c.2.id then { x with resurfacedAt := some now } else x)
          else decisions) := hd'
        split_ifs at hd2 with hthr
        · rcases List.mem_map.mp hd2 with ⟨x, hx, rfl⟩
          by_cases hxc : x.id = c.2.id
          · rw [if_pos hxc] at hid
            simp only at hid
            have hxd : x = d := List.inj_on_of_nodup_map hnodup hx hd hid
            rcases mem_resurfacingCandidates (pick_mem hpick) with
              ⟨hc1, ref, href, hrnone, hrkey, hsel, himp⟩
            rcases hrowOfRef href with ⟨y, hy, rfl⟩
            have hcy : c.2.id = y.id := by
              have := congrArg IgnoredSel.id hsel
              simpa [toIgnoredRef] using this
            have hyid : y.id = d.id := hcy.symm.trans (hxc.symm.trans hid)
            have hyd : y = d := List.inj_on_of_nodup_map hnodup (hsub y hy) hd hyid
            subst hyd
            simp only [toIgnoredRef] at hsel hrkey himp
            have hc2 : c = (c.1, IgnoredSel.mk y.id y.decisionKey y.impact) := by
              rw [← hsel]
            exact ⟨c.1, congrArg some hc2, hc1, hrkey.symm ▸ rfl,
              himp, hthr, pick_max hpick⟩
          · rw [if_neg hxc] at hid hmark
            exact absurd (by
              have : x = d := List.inj_on_of_nodup_map hnodup hx hd hid
              rw [this, h0]) hmark
        · exact absurd (by
            have : d' = d := List.inj_on_of_nodup_map hnodup hd2 hd hid
            rw [this, h0]) hmark

def C3row : Decision :=
  { id := "d1", dtype := .best_seller_loss, status := .ignored, impact := 10,
    confidence := .low, dataJson := {}, decisionKey := "k", resurfacedAt := some 3 }

theorem C3_resurfacing_witness :
    C3row.resurfacedAt = some 3 :=
  (C3_resurfacing 7 50 [⟨0, 100, "k"⟩] [C3row] [C3row] (by decide) (by decide)
      C3row (by decide)).1 3 (by decide) C3row (by decide) (by decide)

/-! ## C2: the active set is capped at 3 and threshold-filtered -/

theorem filter_map_length {α β : Type} (f : α → β) (p : β → Bool) (l : List α) :
    ((l.map f).filter p).length = (l.filter (fun a => p (f a))).length := by
  induction l with
  | nil => rfl
  | cons x xs ih =>
      simp only [List.map_cons, List.filter_cons]
      cases hp : p (f x) <;> simp [hp, ih]

theorem computeActiveFinal_length (r : Option (NewDecisionRef × IgnoredSel))
    (m : ℚ) (init : List ActiveRef) (h : init.length ≤ 3) :
    (computeActiveFinal r m init).length ≤ 3 := by
  cases r with
  | none => exact h
  | some c =>
      simp only [computeActiveFinal]
      split_ifs with h1 h2 h3
      · exact h
      · simp only [List.length_append, List.length_singleton]
        omega
      · simp only [List.length_append, List.length_singleton, List.length_dropLast]
        omega
      · exact h

theorem computeActiveFinal_original (r : Option (NewDecisionRef × IgnoredSel))
    (m : ℚ) (init : List ActiveRef) (i : ℕ)
    (h : ActiveRef.original i ∈ computeActiveFinal r m init) :
    ActiveRef.original i ∈ init := by
  cases r with
  | none => exact h
  | some c =>
      simp only [computeActiveFinal] at h
      split_ifs at h
      · exact h
      · rcases List.mem_append.mp h with h' | h'
        · exact h'
        · exact absurd (List.mem_singleton.mp h') (by simp)
      · rcases List.mem_append.mp h with h' | h'
        · exact (List.dropLast_sublist init).subset h'
        · exact absurd (List.mem_singleton.mp h') (by simp)
      · exact h

theorem run_tail_spec (runId : String) (now minImpact : ℚ)
    (entries2 : List RunEntry) (resurf : Option (NewDecisionRef × IgnoredSel))
    (hnodup : (entries2.map (·.idx)).Nodup) :
    ((entries2.map (mkNewRow runId now
        (computeActiveFinal resurf minImpact
          (((entries2.filter (fun e => decide (e.decision.impact ≥ minImpact))).take 3).map
            (fun e => ActiveRef.original e.idx))))).filter
      (fun d => decide (d.status = DecisionStatus.active))).length ≤ 3 ∧
    ∀ row ∈ entries2.map (mkNewRow runId now
        (computeActiveFinal resurf minImpact
          (((entries2.filter (fun e => decide (e.decision.impact ≥ minImpact))).take 3).map
            (fun e => ActiveRef.original e.idx)))),
      row.status = DecisionStatus.active → minImpact ≤ row.impact := by
  set A := computeActiveFinal resurf minImpact
      (((entries2.filter (fun e => decide (e.decision.impact ≥ minImpact))).take 3).map
        (fun e => ActiveRef.original e.idx)) with hA
  have hA3 : A.length ≤ 3 := by
    rw [hA]
    apply computeActiveFinal_length
    rw [List.length_map, List.length_take]
    omega
  have hstat : ∀ e : RunEntry,
      (mkNewRow runId now A e).status = DecisionStatus.active ↔
        ActiveRef.original e.idx ∈ A := by
    intro e
    by_cases hm : ActiveRef.original e.idx ∈ A
    · simp [mkNewRow, hm]
    · simp [mkNewRow, hm]
  constructor
  · rw [filter_map_length]
    have hreq : (fun e : RunEntry =>
          decide ((mkNewRow runId now A e).status = DecisionStatus.active)) =
        (fun e : RunEntry => decide (ActiveRef.original e.idx ∈ A)) := by
      funext e
      exact decide_eq_decide.mpr (hstat e)
    rw [hreq]
    have hsubA : ∀ a ∈ (entries2.filter
          (fun e => decide (ActiveRef.original e.idx ∈ A))).map
          (fun e => ActiveRef.original e.idx), a ∈ A := by
      intro a ha
      rcases List.mem_map.mp ha with ⟨e, he, rfl⟩
      exact of_decide_eq_true (List.mem_filter.mp he).2
    have hnd : ((entries2.filter
          (fun e => decide (ActiveRef.original e.idx ∈ A))).map
          (fun e => ActiveRef.original e.idx)).Nodup := by
      have h1 : ((entries2.filter
            (fun e => decide (ActiveRef.original e.idx ∈ A))).map (·.idx)).Nodup :=
        List.Nodup.sublist
          (List.Sublist.map (·.idx) (List.filter_sublist entries2)) hnodup
      have h2 : ((entries2.filter
            (fun e => decide (ActiveRef.original e.idx ∈ A))).map
            (fun e => ActiveRef.original e.idx)) =
          ((entries2.filter
            (fun e => decide (ActiveRef.original e.idx ∈ A))).map (·.idx)).map
            ActiveRef.original := by
        rw [List.map_map]
        rfl
      rw [h2]
      exact h1.map (fun a b hab => by cases hab; rfl)
    calc ((entries2.filter (fun e => decide (ActiveRef.original e.idx ∈ A))).length)
        = ((entries2.filter
            (fun e => decide (ActiveRef.original e.idx ∈ A))).map
            (fun e => ActiveRef.original e.idx)).length := (List.length_map _ _).symm
      _ ≤ A.length := nodup_length_le_of_subset hnd hsubA
      _ ≤ 3 := hA3
  · intro row hrow hactive
    rcases List.mem_map.mp hrow with ⟨e, he, rfl⟩
    have hmem : ActiveRef.original e.idx ∈ A := (hstat e).mp hactive
    have hinit := computeActiveFinal_original resurf minImpact _ e.idx (hA ▸ hmem)
    rcases List.mem_map.mp hinit with ⟨e', he', heq⟩
    have hidx : e'.idx = e.idx := by
      have h3 : ActiveRef.original e'.idx = ActiveRef.original e.idx := heq
      exact ActiveRef.original.inj h3
    have he'2 : e' ∈ entries2 :=
      List.mem_of_mem_filter (List.take_subset 3 _ he')
    have hee : e' = e := List.inj_on_of_nodup_map hnodup he'2 he hidx
    have hsurf : e' ∈ entries2.filter
        (fun e => decide (e.decision.impact ≥ minImpact)) :=
      List.take_subset 3 _ he'
    have himp := of_decide_eq_true (List.mem_filter.mp hsurf).2
    rw [hee] at himp
    simpa [mkNewRow] using himp

theorem enum_entries_idx (l : List (DecisionData × String)) :
    ((l.enum.map (fun p => RunEntry.mk p.1 p.2.1 p.2.2)).map (·.idx)) =
      List.range l.length := by
  rw [List.map_map]
  have h : ((·.idx) ∘ fun p : ℕ × (DecisionData × String) =>
      RunEntry.mk p.1 p.2.1 p.2.2) = Prod.fst := rfl
  rw [h, List.enum_map_fst]

theorem markEntry_idx (c : NewDecisionRef × IgnoredSel) (e : RunEntry) :
    (markEntryResurfaced c e).idx = e.idx := by
  unfold markEntryResurfaced
  split <;> rfl

theorem marked_idx_map (c : NewDecisionRef × IgnoredSel) (l : List RunEntry) :
    (l.map (markEntryResurfaced c)).map (·.idx) = l.map (·.idx) := by
  rw [List.map_map]
  exact List.map_congr_left (fun e _ => markEntry_idx c e)

theorem applyResurfacingToEntries_idx (r : Option (NewDecisionRef × IgnoredSel))
    (m : ℚ) (l : List RunEntry) :
    (applyResurfacingToEntries r m l).map (·.idx) = l.map (·.idx) := by
  cases r with
  | none => rfl
  | some c =>
      simp only [applyResurfacingToEntries]
      split_ifs with h
      · exact marked_idx_map c l
      · rfl

/-- The run's tail rows, extracted: the run appends
`entries2.map (mkNewRow ...)` after the (length-preserving) image of the
pre-existing rows, and the entry indices are duplicate-free. -/
theorem generateDecisions_decisions_split (cogs : String → Option ℚ) (now : ℚ)
    (runId : String) (orders : List OrderData) (st : DbState)
    (h : ¬ orders.length < MIN_ORDERS_FOR_DECISIONS) :
    ∃ (entries2 : List RunEntry) (resurf : Option (NewDecisionRef × IgnoredSel)),
      (entries2.map (·.idx)).Nodup ∧
      (generateDecisions cogs now runId orders st).2.decisions =
        applyResurfacingMark now (effectiveMinImpact st.shopRow) resurf
            (clearActiveDecisions now st.decisions) ++
          entries2.map (mkNewRow runId now
            (computeActiveFinal resurf (effectiveMinImpact st.shopRow)
              (((entries2.filter
                  (fun e => decide
                    (e.decision.impact ≥ effectiveMinImpact st.shopRow))).take 3).map
                (fun e => ActiveRef.original e.idx)))) := by
  simp only [generateDecisions]
  rw [if_neg h]
  refine ⟨_, _, ?_, rfl⟩
  rw [applyResurfacingToEntries_idx, enum_entries_idx]
  exact List.nodup_range _

theorem clearActiveDecisions_no_active (now : ℚ) (l : List Decision) :
    ∀ d ∈ clearActiveDecisions now l, d.status ≠ DecisionStatus.active := by
  intro d hd
  rcases List.mem_map.mp hd with ⟨d0, _, rfl⟩
  by_cases h : d0.status = DecisionStatus.active
  · rw [if_pos h]
    exact fun hc => DecisionStatus.noConfusion hc
  · rw [if_neg h]
    exact h

theorem applyResurfacingMark_no_active (now m : ℚ)
    (r : Option (NewDecisionRef × IgnoredSel)) (l : List Decision)
    (hl : ∀ d ∈ l, d.status ≠ DecisionStatus.active) :
    ∀ d ∈ applyResurfacingMark now m r l, d.status ≠ DecisionStatus.active := by
  cases r with
  | none => exact hl
  | some c =>
      simp only [applyResurfacingMark]
      split_ifs with h
      · intro d hd
        rcases List.mem_map.mp hd with ⟨d0, hd0, rfl⟩
        by_cases h2 : d0.id = c.2.id
        · rw [if_pos h2]
          exact hl d0 hd0
        · rw [if_neg h2]
          exact hl d0 hd0
      · exact hl

/-- C2: after a run of `generateDecisions`, at most 3 of the persisted
decisions have status `active`, and every decision with status `active` has
impact at least `max(merchant minimum-impact threshold, system floor 50)`. -/
theorem C2_active_rows (cogs : String → Option ℚ) (now : ℚ) (runId : String)
    (orders : List OrderData) (st : DbState) :
    (((generateDecisions cogs now runId orders st).2.decisions).filter
      (fun d => decide (d.status = DecisionStatus.active))).length ≤ 3 ∧
    ∀ d ∈ (generateDecisions cogs now runId orders st).2.decisions,
      d.status = DecisionStatus.active →
      max (st.shopRow.minImpactThreshold.getD SYSTEM_MIN_IMPACT)
        SYSTEM_MIN_IMPACT ≤ d.impact := by
  by_cases h : orders.length < MIN_ORDERS_FOR_DECISIONS
  · have hres : (generateDecisions cogs now runId orders st).2.decisions =
        clearActiveDecisions now st.decisions := by
      simp [generateDecisions, h]
    have hpre := clearActiveDecisions_no_active now st.decisions
    constructor
    · rw [hres]
      have hfil : (clearActiveDecisions now st.decisions).filter
          (fun d => decide (d.status = DecisionStatus.active)) = [] :=
        List.filter_eq_nil_iff.mpr (fun d hd => by simpa using hpre d hd)
      rw [hfil]
      exact Nat.zero_le 3
    · intro d hd hact
      rw [hres] at hd
      exact absurd hact (hpre d hd)
  · obtain ⟨entries2, resurf, hnd, heq⟩ :=
      generateDecisions_decisions_split cogs now runId orders st h
    have hpre : ∀ d ∈ applyResurfacingMark now (effectiveMinImpact st.shopRow)
        resurf (clearActiveDecisions now st.decisions),
        d.status ≠ DecisionStatus.active :=
      applyResurfacingMark_no_active now (effectiveMinImpact st.shopRow) resurf
        (clearActiveDecisions now st.decisions)
        (clearActiveDecisions_no_active now st.decisions)
    have hrun := run_tail_spec runId now (effectiveMinImpact st.shopRow)
      entries2 resurf hnd
    constructor
    · rw [heq, List.filter_append]
      have hfil : (applyResurfacingMark now (effectiveMinImpact st.shopRow)
          resurf (clearActiveDecisions now st.decisions)).filter
          (fun d => decide (d.status = DecisionStatus.active)) = [] :=
        List.filter_eq_nil_iff.mpr (fun d hd => by simpa using hpre d hd)
      rw [hfil, List.nil_append]
      exact hrun.1
    · intro d hd hact
      rw [heq] at hd
      rcases List.mem_append.mp hd with h2 | h2
      · exact absurd hact (hpre d h2)
      · exact hrun.2 d h2 hact

end Decisions
